import Mathlib

/-! # TMCS1123x3A sensor conversion routines

A shallow embedding of `src/main.c`, `src/utilities.c` and `src/utilities-config.h`.

* A `double` object is a value of `Option ℚ`: `some q` is the exact rational value `q`
  (arithmetic is exact), `none` is a double without a defined value (an object that was
  never written, or the result of an operation that has none).
* A fixed-size C array of `n` doubles is a function `Fin n → Option ℚ`; the heap-allocated
  sample buffer is a `List (Option ℚ)`.
* Everything `main` obtains from outside the four source files (the argument parser, the
  allocator, the UxHw calls, `clock`, the aggregator, the CSV writer) is a field of
  `Environment`, and everything `main` does to the outside is an `Event` of its trace.
-/

namespace TMCS112x

/-! ## `utilities-config.h` -/

/-- The macro `kSensorCalibrationConstantTMCS1123x3ASensitivity`, `(0.075)`. -/
def kSensorCalibrationConstantTMCS1123x3ASensitivity : ℚ := 75 / 1000

/-- The macro `kDefaultInputDistributionVoutUniformDistLow`, `(3.2)`. -/
def kDefaultInputDistributionVoutUniformDistLow : ℚ := 32 / 10

/-- The macro `kDefaultInputDistributionVoutUniformDistHigh`, `(3.4)`. -/
def kDefaultInputDistributionVoutUniformDistHigh : ℚ := 34 / 10

/-- The macro `kDefaultInputDistributionVrefUniformDistLow`, `(2.4)`. -/
def kDefaultInputDistributionVrefUniformDistLow : ℚ := 24 / 10

/-- The macro `kDefaultInputDistributionVrefUniformDistHigh`, `(2.6)`. -/
def kDefaultInputDistributionVrefUniformDistHigh : ℚ := 26 / 10

/-- The enumerator `kInputDistributionIndexMax` of `InputDistributionIndex`: the number of
input channels. -/
def kInputDistributionIndexMax : Nat := 2

/-- The enumerator `kInputDistributionIndexVout = 0`. -/
def kInputDistributionIndexVout : Fin kInputDistributionIndexMax := ⟨0, by decide⟩

/-- The enumerator `kInputDistributionIndexVref = 1`. -/
def kInputDistributionIndexVref : Fin kInputDistributionIndexMax := ⟨1, by decide⟩

/-- The enumerator `kOutputDistributionIndexMax` of `OutputDistributionIndex`: the number of
output channels. -/
def kOutputDistributionIndexMax : Nat := 1

/-- The enumerator `kOutputDistributionIndexCalibratedCurrent = 0`. -/
def kOutputDistributionIndexCalibratedCurrent : Fin kOutputDistributionIndexMax := ⟨0, by decide⟩

/-! ## Doubles and arrays of doubles -/

/-- A `double` object: `some q` holds the value `q`, `none` has no defined value. -/
abbrev Double := Option ℚ

/-- The array `double inputDistributions[kInputDistributionIndexMax]`. -/
abbrev InputDistributions := Fin kInputDistributionIndexMax → Double

/-- The array `double outputDistributions[kOutputDistributionIndexMax]`. -/
abbrev OutputDistributions := Fin kOutputDistributionIndexMax → Double

/-- An array none of whose elements has been written. -/
def uninitialised (n : Nat) : Fin n → Double := fun _ => none

/-- Subtraction of doubles. -/
def Double.sub (a b : Double) : Double :=
  match a, b with
  | some x, some y => some (x - y)
  | _, _ => none

/-- Division of a double by a constant. -/
def Double.divConst (a : Double) (c : ℚ) : Double :=
  match a with
  | some x => some (x / c)
  | none => none

/-- Multiplication of a double by a constant. -/
def Double.mulConst (a : Double) (c : ℚ) : Double :=
  match a with
  | some x => some (x * c)
  | none => none

/-! ## `main.c`: the kernel -/

/-- The two arrays `calculateSensorOutput` receives pointers to. -/
structure KernelMemory where
  inputDistributions : InputDistributions
  outputDistributions : OutputDistributions

/-- The function `calculateSensorOutput` of `main.c`: reads `Vref` and `Vout`, computes
`(Vout - Vref) / kSensorCalibrationConstantTMCS1123x3ASensitivity`, stores it in
`outputDistributions[kOutputDistributionIndexCalibratedCurrent]` and returns it. The result is
the returned value and the memory after the call. -/
def calculateSensorOutput (m : KernelMemory) : Double × KernelMemory :=
  let Vref := m.inputDistributions kInputDistributionIndexVref
  let Vout := m.inputDistributions kInputDistributionIndexVout
  let calibratedValue :=
    Double.divConst (Double.sub Vout Vref) kSensorCalibrationConstantTMCS1123x3ASensitivity
  (calibratedValue,
    { m with
      outputDistributions :=
        Function.update m.outputDistributions kOutputDistributionIndexCalibratedCurrent
          calibratedValue })

/-- The value shown by the conversion `%.2lf`: the multiple of `1/100` nearest to `x`, an exact
tie going to the even multiple. -/
def formatTwoDecimals (x : ℚ) : ℚ :=
  let scaled := x * 100
  let lower : ℤ := ⌊scaled⌋
  let frac := scaled - lower
  let n : ℤ :=
    if frac < 1 / 2 then lower
    else if 1 / 2 < frac then lower + 1
    else if lower % 2 = 0 then lower
    else lower + 1
  (n : ℚ) / 100

/-- The input array holding `Vout` at index `kInputDistributionIndexVout` and `Vref` at index
`kInputDistributionIndexVref`. -/
def inputVector (Vout Vref : ℚ) : InputDistributions :=
  fun i => if i = kInputDistributionIndexVout then some Vout else some Vref

/-! ## `common.h`: the declarations `main.c` and `utilities.c` use -/

/-- The enumeration `CommonConstantReturnType`. -/
inductive CommonConstantReturnType
  | kCommonConstantReturnTypeSuccess
  | kCommonConstantReturnTypeError
  deriving DecidableEq, Repr

open CommonConstantReturnType

/-- Modelled from the spec: the integer values of the enumerators of
`CommonConstantReturnType`, which `common.h` declares. The exit code is 0 on success and
non-zero on a configuration failure, and `main` takes the branch
`if (getCommandLineArguments(...))` exactly on the error value. -/
def CommonConstantReturnType.toInt : CommonConstantReturnType → Int
  | kCommonConstantReturnTypeSuccess => 0
  | kCommonConstantReturnTypeError => 1

/-- The members of `CommonCommandLineArguments` that `main.c` and `utilities.c` read or write.
The structure is declared in `common.h`; a count is the natural number its member holds
once converted to `size_t`. -/
structure CommonCommandLineArguments where
  outputFilePath : String
  isWriteToFileEnabled : Bool
  isInputFromFileEnabled : Bool
  isOutputSelected : Bool
  outputSelect : Nat
  isMonteCarloMode : Bool
  numberOfMonteCarloIterations : Nat
  isTimingEnabled : Bool
  isBenchmarkingMode : Bool
  isOutputJSONMode : Bool
  isHelpEnabled : Bool
  isVerbose : Bool
  deriving DecidableEq, Repr

/-- The structure `MeanAndVariance` returned by `calculateMeanAndVarianceOfDoubleSamples`. -/
structure MeanAndVariance where
  mean : Double
  variance : Double
  deriving DecidableEq, Repr

/-- The fields of a `JSONVariable` that `printJSONFormattedOutput` fills in; `values` is the
array that `values.asDouble` points to, and the type tag is always `kJSONVariableTypeDouble`. -/
structure JSONVariable where
  variableSymbol : String
  variableDescription : String
  values : Option (List Double)
  size : Nat
  deriving DecidableEq, Repr

/-! ## `utilities.h`, `utilities.c` -/

/-- The structure `CommandLineArguments` of `utilities.h`. -/
structure CommandLineArguments where
  common : CommonCommandLineArguments
  deriving DecidableEq, Repr

/-- The universal zero initialiser `(CommonCommandLineArguments) {0}`. -/
def zeroCommonCommandLineArguments : CommonCommandLineArguments where
  outputFilePath := ""
  isWriteToFileEnabled := false
  isInputFromFileEnabled := false
  isOutputSelected := false
  outputSelect := 0
  isMonteCarloMode := false
  numberOfMonteCarloIterations := 0
  isTimingEnabled := false
  isBenchmarkingMode := false
  isOutputJSONMode := false
  isHelpEnabled := false
  isVerbose := false

/-- The function `setDefaultCommandLineArguments`: the value it stores in `*arguments`. -/
def setDefaultCommandLineArguments : CommandLineArguments :=
  { common := zeroCommonCommandLineArguments }

/-- What `getCommandLineArguments` and `printUsage` write to the error stream, one
constructor per `fprintf` (the usage text counts as one). -/
inductive Diagnostic
  | argumentsPointerIsNull
  | parsingCommandLineArgumentsFailed
  | usage
  | readingInputsFromCSVNotSupported
  | writingToOutputFileNotSupportedInMonteCarloMode
  | verboseModeNotSupported
  | outputSelectValueTooLarge (provided : Nat) (max : Int)
  deriving DecidableEq, Repr

/-- How a call of `getCommandLineArguments` ends: it returns a status, leaving `*arguments`
with the given contents (`none` when the pointer is `NULL`), or it calls
`exit(EXIT_SUCCESS)` after printing the usage. -/
inductive ArgumentsOutcome
  | returned (status : CommonConstantReturnType) (arguments : Option CommandLineArguments)
      (stderr : List Diagnostic)
  | exitedWithSuccess (stderr : List Diagnostic)
  deriving DecidableEq, Repr

/-- The function `getCommandLineArguments` of `utilities.c`. The pointer `arguments` is
`none` when it is `NULL`; `parseArgs` stands for the call
`parseArgs(argc, argv, &arguments->common, &demoSpecificOptions)` of the common utility
routines: from the contents of `arguments->common` it gives the returned integer and the new
contents. -/
def getCommandLineArguments
    (parseArgs : CommonCommandLineArguments → Int × CommonCommandLineArguments)
    (arguments : Option CommandLineArguments) : ArgumentsOutcome :=
  match arguments with
  | none => .returned kCommonConstantReturnTypeError none [.argumentsPointerIsNull]
  | some _ =>
    let arguments := setDefaultCommandLineArguments
    let parsed := parseArgs arguments.common
    let arguments : CommandLineArguments := { arguments with common := parsed.2 }
    if parsed.1 ≠ 0 then
      .returned kCommonConstantReturnTypeError (some arguments)
        [.parsingCommandLineArgumentsFailed, .usage]
    else if arguments.common.isHelpEnabled then
      .exitedWithSuccess [.usage]
    else if arguments.common.isInputFromFileEnabled then
      .returned kCommonConstantReturnTypeError (some arguments)
        [.readingInputsFromCSVNotSupported]
    else if arguments.common.isWriteToFileEnabled && arguments.common.isMonteCarloMode then
      .returned kCommonConstantReturnTypeError (some arguments)
        [.writingToOutputFileNotSupportedInMonteCarloMode]
    else
      let stderr : List Diagnostic :=
        if arguments.common.isVerbose then [.verboseModeNotSupported] else []
      let arguments : CommandLineArguments :=
        if !arguments.common.isOutputSelected then
          { arguments with
            common :=
              { arguments.common with
                outputSelect := kOutputDistributionIndexCalibratedCurrent.val } }
        else arguments
      if arguments.common.outputSelect ≥ kOutputDistributionIndexMax then
        .returned kCommonConstantReturnTypeError (some arguments)
          (stderr ++
            [.outputSelectValueTooLarge arguments.common.outputSelect
              ((kOutputDistributionIndexMax : Int) - 1)])
      else
        .returned kCommonConstantReturnTypeSuccess (some arguments) stderr

/-- One line written by `printCalibratedValueAndProbabilities`. The first line shows the
estimate through `%.2lf`; a probability line carries the percentage of its text and the two
arguments of its `printf`. -/
inductive ReportLine
  | calibratedSensorOutput (shown : ℚ)
  | blank
  | smallerThan (percent : Nat) (value : ℚ) (probability : ℚ)
  | greaterThan (percent : Nat) (value : ℚ) (probability : ℚ)
  deriving DecidableEq, Repr

/-- The function `printCalibratedValueAndProbabilities` of `utilities.c`: the lines it
prints, in order. `UxHwDoubleProbabilityGT value threshold` is the UxHw tail query
`P(value > threshold)`. -/
def printCalibratedValueAndProbabilities (UxHwDoubleProbabilityGT : ℚ → ℚ → ℚ)
    (calibratedSensorOutput : ℚ) : List ReportLine :=
  [ .calibratedSensorOutput (formatTwoDecimals calibratedSensorOutput),
    .blank,
    .smallerThan 1 calibratedSensorOutput
      (1 - UxHwDoubleProbabilityGT calibratedSensorOutput (calibratedSensorOutput * (1 - 0.01))),
    .smallerThan 5 calibratedSensorOutput
      (1 - UxHwDoubleProbabilityGT calibratedSensorOutput (calibratedSensorOutput * (1 - 0.05))),
    .smallerThan 10 calibratedSensorOutput
      (1 - UxHwDoubleProbabilityGT calibratedSensorOutput (calibratedSensorOutput * (1 - 0.1))),
    .smallerThan 15 calibratedSensorOutput
      (1 - UxHwDoubleProbabilityGT calibratedSensorOutput (calibratedSensorOutput * (1 - 0.15))),
    .blank,
    .greaterThan 1 calibratedSensorOutput
      (UxHwDoubleProbabilityGT calibratedSensorOutput (1.01 * calibratedSensorOutput)),
    .greaterThan 5 calibratedSensorOutput
      (UxHwDoubleProbabilityGT calibratedSensorOutput (1.05 * calibratedSensorOutput)),
    .greaterThan 10 calibratedSensorOutput
      (UxHwDoubleProbabilityGT calibratedSensorOutput (1.1 * calibratedSensorOutput)),
    .greaterThan 15 calibratedSensorOutput
      (UxHwDoubleProbabilityGT calibratedSensorOutput (1.15 * calibratedSensorOutput)) ]

/-- Whether a report line is one of the tail-probability lines. -/
def ReportLine.isTailProbability : ReportLine → Bool
  | .smallerThan _ _ _ => true
  | .greaterThan _ _ _ => true
  | _ => false

/-- The probability a "greater than" line of the given percentage reports, if there is one. -/
def greaterThanProbability (percent : Nat) : List ReportLine → Option ℚ
  | [] => none
  | .greaterThan p _ probability :: rest =>
    if p = percent then some probability else greaterThanProbability percent rest
  | _ :: rest => greaterThanProbability percent rest

/-- The function `printJSONFormattedOutput` of `utilities.c`: the `JSONVariable` it hands to
`printJSONVariables`. `outputVariable` is the array reachable from `&outputDistributions[...]`,
`monteCarloOutputSamples` is `none` for `NULL`, and `maxChars` is the constant
`kCommonConstantMaxCharsPerJSONVariableDescription` bounding the `strncpy`. -/
def printJSONFormattedOutput (maxChars : Nat) (arguments : CommandLineArguments)
    (outputVariable : List Double) (monteCarloOutputSamples : Option (List Double))
    (variableDescription : String) : JSONVariable :=
  let pointerToOutputVariable :=
    if arguments.common.isMonteCarloMode then monteCarloOutputSamples else some outputVariable
  { variableSymbol := "calibratedSensorOutput"
    variableDescription := variableDescription.take maxChars
    values := pointerToOutputVariable
    size := arguments.common.numberOfMonteCarloIterations }

/-! ## `main.c`: the program -/

/-- The size in bytes of a `double`. -/
def sizeofDouble : Nat := 8

/-- The number of values of the type `size_t`, in which the byte count of the sample buffer
is computed: arithmetic in `size_t` is modulo this number. -/
def sizeModulus : Nat := 2 ^ 64

/-- What `main` obtains from outside `main.c` and `utilities.c`. A function whose first
argument is a call number is asked for the result of its call of that number (from 0). -/
structure Environment where
  /-- The call `parseArgs(argc, argv, &arguments->common, &demoSpecificOptions)`. -/
  parseArgs : CommonCommandLineArguments → Int × CommonCommandLineArguments
  /-- Whether `checkedMalloc` of that many bytes returns a block; it ends the process when
  it does not. -/
  checkedMallocSucceeds : Nat → Bool
  /-- The value of the given call of `UxHwDoubleUniformDist(low, high)`. -/
  UxHwDoubleUniformDist : Nat → ℚ → ℚ → ℚ
  /-- The value of the given call of `clock()`. -/
  clock : Nat → Int
  /-- The constant `CLOCKS_PER_SEC`. -/
  CLOCKS_PER_SEC : Nat
  /-- The aggregator of the common utility routines, on the array its pointer argument
  points to (`none` for `NULL`) and its count argument. -/
  calculateMeanAndVarianceOfDoubleSamples : Option (List Double) → Nat → MeanAndVariance
  /-- The tail query `UxHwDoubleProbabilityGT(value, threshold)`. -/
  UxHwDoubleProbabilityGT : ℚ → ℚ → ℚ
  /-- The status `writeOutputDoubleDistributionsToCSV` returns. -/
  writeOutputDoubleDistributionsToCSV :
    String → OutputDistributions → Nat → CommonConstantReturnType
  /-- The constant `kCommonConstantMaxCharsPerJSONVariableDescription`. -/
  kCommonConstantMaxCharsPerJSONVariableDescription : Nat

/-- What `main` does, call by call: the calls that leave `main.c`, the kernel call, and the
store into the sample buffer. -/
inductive Event
  | checkedMalloc (size : Nat)
  | clock (reading : Int)
  | setInputDistributionsViaUxHwCall (inputDistributions : InputDistributions)
  | calculateSensorOutput (inputDistributions : InputDistributions) (calibratedValue : Double)
  | storeSample (i : Nat) (calibratedSensorOutput : Double)
  | calculateMeanAndVarianceOfDoubleSamples (samples : Option (List Double)) (count : Nat)
  | printBenchmarkLine (calibratedSensorOutput : Double) (microseconds : Option Nat)
  | printCalibratedValueAndProbabilities (calibratedSensorOutput : Double)
      (lines : Option (List ReportLine))
  | printJSONVariables (jsonVariables : JSONVariable) (count : Nat)
  | printCpuTimeUsed (cpuTimeUsedSeconds : Double)
  | writeOutputDoubleDistributionsToCSV (outputFilePath : String)
      (outputDistributions : OutputDistributions) (count : Nat)
  | saveMonteCarloDoubleDataToDataDotOutFile (samples : Option (List Double))
      (cpuTimeUsedMicroseconds : Option Nat) (count : Nat)
  | free

/-- The local variables of `main`, the number of UxHw draws and of `clock` calls made so
far, and the trace of events so far. -/
structure MainState where
  calibratedSensorOutput : Double
  monteCarloOutputSamples : Option (List Double)
  start : Option Int
  end_ : Option Int
  cpuTimeUsedSeconds : Double
  inputDistributions : InputDistributions
  outputDistributions : OutputDistributions
  meanAndVariance : Option MeanAndVariance
  uxhwCalls : Nat
  clockCalls : Nat
  trace : List Event
  /-- Whether a store outside the sample buffer has happened: the run has undefined
  behaviour from there on. -/
  undefinedBehaviour : Bool

/-- The locals of `main` at its declarations: only `monteCarloOutputSamples` (`NULL`) has an
initialiser. -/
def initialState : MainState where
  calibratedSensorOutput := none
  monteCarloOutputSamples := none
  start := none
  end_ := none
  cpuTimeUsedSeconds := none
  inputDistributions := uninitialised kInputDistributionIndexMax
  outputDistributions := uninitialised kOutputDistributionIndexMax
  meanAndVariance := none
  uxhwCalls := 0
  clockCalls := 0
  trace := []
  undefinedBehaviour := false

/-- The function `setInputDistributionsViaUxHwCall` of `main.c`, its two draws being the
calls number `call` and `call + 1` of `UxHwDoubleUniformDist`. -/
def setInputDistributionsViaUxHwCall (env : Environment) (call : Nat)
    (inputDistributions : InputDistributions) : InputDistributions :=
  let inputDistributions :=
    Function.update inputDistributions kInputDistributionIndexVout
      (some (env.UxHwDoubleUniformDist call
        kDefaultInputDistributionVoutUniformDistLow
        kDefaultInputDistributionVoutUniformDistHigh))
  Function.update inputDistributions kInputDistributionIndexVref
    (some (env.UxHwDoubleUniformDist (call + 1)
      kDefaultInputDistributionVrefUniformDistLow
      kDefaultInputDistributionVrefUniformDistHigh))

/-- The conversion `(uint64_t) x` of a double: the value truncated toward zero, `none` when
`x` has no defined value or the truncated value is not representable. -/
def castToUInt64 (x : Double) : Option Nat :=
  match x with
  | none => none
  | some q =>
    let t : ℤ := if 0 ≤ q then ⌊q⌋ else ⌈q⌉
    if 0 ≤ t ∧ t < 2 ^ 64 then some t.toNat else none

/-- The argument `numberOfMonteCarloIterations * sizeof(double)` of `checkedMalloc` in
`main`: the product is computed in `size_t`, so it wraps around at `sizeModulus`. -/
def allocationSize (arguments : CommandLineArguments) : Nat :=
  (arguments.common.numberOfMonteCarloIterations * sizeofDouble) % sizeModulus

/-- The allocation at the head of `main`: in Monte Carlo mode,
`checkedMalloc(numberOfMonteCarloIterations * sizeof(double))`, which gives a block with
room for as many doubles as its byte count holds. The result is `none` when `checkedMalloc`
ends the process. -/
def allocateSamples (env : Environment) (arguments : CommandLineArguments) (s : MainState) :
    Option MainState :=
  if arguments.common.isMonteCarloMode then
    let size := allocationSize arguments
    if env.checkedMallocSucceeds size then
      some { s with
        monteCarloOutputSamples := some (List.replicate (size / sizeofDouble) none)
        trace := s.trace ++ [.checkedMalloc size] }
    else none
  else some s

/-- The block "Start timing" of `main`. -/
def startTiming (env : Environment) (arguments : CommandLineArguments) (s : MainState) :
    MainState :=
  if arguments.common.isTimingEnabled || arguments.common.isBenchmarkingMode then
    { s with
      start := some (env.clock s.clockCalls)
      clockCalls := s.clockCalls + 1
      trace := s.trace ++ [.clock (env.clock s.clockCalls)] }
  else s

/-- The body of the evaluation loop of `main`, at index `i`. The store
`monteCarloOutputSamples[i] = calibratedSensorOutput` is defined when `i` is inside the
allocated block; outside it (or through `NULL`) the behaviour is undefined: the state is
marked, and a marked state is left as it is by the iterations that would follow. -/
def evaluationLoopBody (env : Environment) (arguments : CommandLineArguments)
    (s : MainState) (i : Nat) : MainState :=
  if s.undefinedBehaviour then s
  else
    let drawn := setInputDistributionsViaUxHwCall env s.uxhwCalls s.inputDistributions
    let result := calculateSensorOutput ⟨drawn, s.outputDistributions⟩
    let s : MainState :=
      { s with
        inputDistributions := result.2.inputDistributions
        outputDistributions := result.2.outputDistributions
        calibratedSensorOutput := result.1
        uxhwCalls := s.uxhwCalls + 2
        trace := s.trace ++
          [.setInputDistributionsViaUxHwCall drawn, .calculateSensorOutput drawn result.1] }
    if arguments.common.isMonteCarloMode then
      match s.monteCarloOutputSamples with
      | some samples =>
        if i < samples.length then
          { s with
            monteCarloOutputSamples := some (samples.set i s.calibratedSensorOutput)
            trace := s.trace ++ [.storeSample i s.calibratedSensorOutput] }
        else { s with undefinedBehaviour := true }
      | none => { s with undefinedBehaviour := true }
    else s

/-- The evaluation loop of `main`:
`for (size_t i = 0; i < numberOfMonteCarloIterations; i++)`. -/
def evaluationLoop (env : Environment) (arguments : CommandLineArguments) (s : MainState) :
    MainState :=
  (List.range arguments.common.numberOfMonteCarloIterations).foldl
    (evaluationLoopBody env arguments) s

/-- The post-processing block of `main`: in Monte Carlo mode the mean of the samples
replaces `calibratedSensorOutput`. -/
def postProcess (env : Environment) (arguments : CommandLineArguments) (s : MainState) :
    MainState :=
  if arguments.common.isMonteCarloMode then
    let meanAndVariance :=
      env.calculateMeanAndVarianceOfDoubleSamples s.monteCarloOutputSamples
        arguments.common.numberOfMonteCarloIterations
    { s with
      meanAndVariance := some meanAndVariance
      calibratedSensorOutput := meanAndVariance.mean
      trace := s.trace ++
        [.calculateMeanAndVarianceOfDoubleSamples s.monteCarloOutputSamples
          arguments.common.numberOfMonteCarloIterations] }
  else s

/-- The block "Stop timing" of `main`. -/
def stopTiming (env : Environment) (arguments : CommandLineArguments) (s : MainState) :
    MainState :=
  if arguments.common.isTimingEnabled || arguments.common.isBenchmarkingMode then
    let reading := env.clock s.clockCalls
    { s with
      end_ := some reading
      cpuTimeUsedSeconds :=
        match s.start with
        | some start => some (((reading - start : ℤ) : ℚ) / (env.CLOCKS_PER_SEC : ℚ))
        | none => none
      clockCalls := s.clockCalls + 1
      trace := s.trace ++ [.clock reading] }
  else s

/-- The reporting block of `main`, the `if (isBenchmarkingMode) ... else ...`. The Boolean
is true when `main` leaves through `return kCommonConstantReturnTypeError` because the CSV
writer failed. -/
def reportResults (env : Environment) (arguments : CommandLineArguments) (s : MainState) :
    MainState × Bool :=
  if arguments.common.isBenchmarkingMode then
    ({ s with
      trace := s.trace ++
        [.printBenchmarkLine s.calibratedSensorOutput
          (castToUInt64 (Double.mulConst s.cpuTimeUsedSeconds 1000000))] }, false)
  else
    let s : MainState :=
      if !arguments.common.isOutputJSONMode then
        { s with
          trace := s.trace ++
            [.printCalibratedValueAndProbabilities s.calibratedSensorOutput
              (s.calibratedSensorOutput.map
                (printCalibratedValueAndProbabilities env.UxHwDoubleProbabilityGT))] }
      else
        { s with
          trace := s.trace ++
            [.printJSONVariables
              (printJSONFormattedOutput env.kCommonConstantMaxCharsPerJSONVariableDescription
                arguments
                [s.outputDistributions kOutputDistributionIndexCalibratedCurrent]
                s.monteCarloOutputSamples
                "calibratedSensorOutput")
              kOutputDistributionIndexMax] }
    let s : MainState :=
      if arguments.common.isTimingEnabled then
        { s with trace := s.trace ++ [.printCpuTimeUsed s.cpuTimeUsedSeconds] }
      else s
    if arguments.common.isWriteToFileEnabled then
      let status :=
        env.writeOutputDoubleDistributionsToCSV arguments.common.outputFilePath
          s.outputDistributions kOutputDistributionIndexMax
      let s : MainState :=
        { s with
          trace := s.trace ++
            [.writeOutputDoubleDistributionsToCSV arguments.common.outputFilePath
              s.outputDistributions kOutputDistributionIndexMax] }
      (s, decide (status.toInt ≠ 0))
    else (s, false)

/-- The last block of `main`: in Monte Carlo mode the samples and the elapsed time go to
`saveMonteCarloDoubleDataToDataDotOutFile` and the buffer is freed. -/
def saveAndFree (arguments : CommandLineArguments) (s : MainState) : MainState :=
  if arguments.common.isMonteCarloMode then
    { s with
      trace := s.trace ++
        [.saveMonteCarloDoubleDataToDataDotOutFile s.monteCarloOutputSamples
          (castToUInt64 (Double.mulConst s.cpuTimeUsedSeconds 1000000))
          arguments.common.numberOfMonteCarloIterations,
         .free] }
  else s

/-- How a run of `main` ends, with what it wrote to the error stream while reading its
arguments and the trace of its events. -/
inductive Outcome
  | returned (status : Int) (stderr : List Diagnostic) (trace : List Event)
  | exitedWithSuccess (stderr : List Diagnostic)
  | endedByCheckedMalloc (stderr : List Diagnostic) (trace : List Event)
  /-- The run stored outside the sample buffer; the trace is that of its events before the
  store. -/
  | undefinedBehaviour (stderr : List Diagnostic) (trace : List Event)

/-- The state of `main` when its evaluation loop has ended, if the allocation succeeded. -/
def stateAfterLoop (env : Environment) (arguments : CommandLineArguments) : Option MainState :=
  (allocateSamples env arguments initialState).map
    (fun s => evaluationLoop env arguments (startTiming env arguments s))

/-- The function `main` from the point where `getCommandLineArguments` has returned success
with the given arguments. -/
def mainWithArguments (env : Environment) (arguments : CommandLineArguments)
    (stderr : List Diagnostic) : Outcome :=
  match stateAfterLoop env arguments with
  | none =>
    .endedByCheckedMalloc stderr [.checkedMalloc (allocationSize arguments)]
  | some s =>
    if s.undefinedBehaviour then .undefinedBehaviour stderr s.trace
    else
      let s := postProcess env arguments s
      let s := stopTiming env arguments s
      let reported := reportResults env arguments s
      if reported.2 then
        .returned kCommonConstantReturnTypeError.toInt stderr reported.1.trace
      else
        .returned 0 stderr (saveAndFree arguments reported.1).trace

/-- The function `main` of `main.c`. -/
def main (env : Environment) : Outcome :=
  match getCommandLineArguments env.parseArgs (some { common := zeroCommonCommandLineArguments })
  with
  | .exitedWithSuccess stderr => .exitedWithSuccess stderr
  | .returned status arguments stderr =>
    if status.toInt ≠ 0 then
      .returned kCommonConstantReturnTypeError.toInt stderr []
    else
      mainWithArguments env (arguments.getD { common := zeroCommonCommandLineArguments }) stderr

/-! ## Concrete environments -/

/-- The values of the samples, when every one of them has a defined value. -/
def definedSamples : List Double → Option (List ℚ)
  | [] => some []
  | none :: _ => none
  | some x :: rest => (definedSamples rest).map (fun values => x :: values)

/-- Modelled from the spec: the aggregator `calculateMeanAndVarianceOfDoubleSamples` of the
common utility routines. The mean is the sum of the first `count` samples divided by `count`;
the variance is the two-pass one, the average of the squared deviations from that mean. A
sample without a defined value, a `NULL` array or a zero count leaves both without a defined
value. -/
def twoPassMeanAndVariance (samples : Option (List Double)) (count : Nat) : MeanAndVariance :=
  match samples with
  | none => { mean := none, variance := none }
  | some samples =>
    match definedSamples (samples.take count) with
    | none => { mean := none, variance := none }
    | some values =>
      if count = 0 then { mean := none, variance := none }
      else
        let mean := values.sum / (count : ℚ)
        { mean := some mean
          variance := some ((values.map (fun x => (x - mean) ^ 2)).sum / (count : ℚ)) }

/-- The tail query of a distribution concentrated at the point `x`:
`P(X > threshold)` is 1 below `x` and 0 from `x` on. -/
def pointMassProbabilityGT (x : ℚ) : ℚ → ℚ → ℚ :=
  fun _ threshold => if threshold < x then 1 else 0

/-- An environment whose parser succeeds with the given configuration, whose allocations
succeed, whose draws are the midpoints of their intervals, whose clock advances by 1000
ticks per call, and whose tail queries are those of a point mass at 11. -/
def exampleEnvironment (common : CommonCommandLineArguments) : Environment where
  parseArgs := fun _ => (0, common)
  checkedMallocSucceeds := fun _ => true
  UxHwDoubleUniformDist := fun _ low high => (low + high) / 2
  clock := fun call => 1000 * (call : ℤ)
  CLOCKS_PER_SEC := 1000000
  calculateMeanAndVarianceOfDoubleSamples := twoPassMeanAndVariance
  UxHwDoubleProbabilityGT := pointMassProbabilityGT 11
  writeOutputDoubleDistributionsToCSV := fun _ _ _ => kCommonConstantReturnTypeSuccess
  kCommonConstantMaxCharsPerJSONVariableDescription := 1024

/-- The configuration of a run without options: one iteration, output 0. -/
def defaultConfiguration : CommonCommandLineArguments :=
  { zeroCommonCommandLineArguments with numberOfMonteCarloIterations := 1 }

/-- The configuration in which the parser reports output selector 1. -/
def selectorOneConfiguration : CommonCommandLineArguments :=
  { defaultConfiguration with isOutputSelected := true, outputSelect := 1 }

/-- A Monte Carlo configuration with the given iteration count and no other option. -/
def monteCarloConfiguration (n : Nat) : CommonCommandLineArguments :=
  { defaultConfiguration with isMonteCarloMode := true, numberOfMonteCarloIterations := n }

/-- A Monte Carlo configuration with the given iteration count and timing enabled. -/
def timedMonteCarloConfiguration (n : Nat) : CommonCommandLineArguments :=
  { monteCarloConfiguration n with isTimingEnabled := true }

/-- The four percentages of the report with their fractions `k`. -/
def reportedOffsets : List (Nat × ℚ) := [(1, 0.01), (5, 0.05), (10, 0.10), (15, 0.15)]

/-! ## Reading a run -/

/-- The arguments are validated: called by `main`, `getCommandLineArguments` returns
success and leaves `arguments` in `main`'s structure, having written `stderr`. -/
def Validated (env : Environment) (arguments : CommandLineArguments)
    (stderr : List Diagnostic) : Prop :=
  getCommandLineArguments env.parseArgs (some { common := zeroCommonCommandLineArguments })
    = .returned kCommonConstantReturnTypeSuccess (some arguments) stderr

/-- The input array drawn by iteration `i` of the evaluation loop: its draws are the calls
`2 * i` and `2 * i + 1` of `UxHwDoubleUniformDist`. -/
def drawnInputDistributions (env : Environment) (i : Nat) : InputDistributions :=
  setInputDistributionsViaUxHwCall env (2 * i) (uninitialised kInputDistributionIndexMax)

/-- The kernel applied to the input array drawn by iteration `i`: the value it returns. -/
def sampleValue (env : Environment) (i : Nat) : Double :=
  (calculateSensorOutput
    ⟨drawnInputDistributions env i, uninitialised kOutputDistributionIndexMax⟩).1

/-- The events of iteration `i` of the evaluation loop. -/
def iterationEvents (env : Environment) (arguments : CommandLineArguments) (i : Nat) :
    List Event :=
  [.setInputDistributionsViaUxHwCall (drawnInputDistributions env i),
    .calculateSensorOutput (drawnInputDistributions env i) (sampleValue env i)] ++
  (if arguments.common.isMonteCarloMode then [.storeSample i (sampleValue env i)] else [])

/-- The sample buffer after the stores of iterations `0 .. k - 1`. -/
def storeSamples (env : Environment) (k : Nat) (samples : List Double) : List Double :=
  (List.range k).foldl (fun samples i => samples.set i (sampleValue env i)) samples

/-- The trace of a run, empty when the run ended while reading its arguments. -/
def Outcome.trace : Outcome → List Event
  | .returned _ _ trace => trace
  | .exitedWithSuccess _ => []
  | .endedByCheckedMalloc _ trace => trace
  | .undefinedBehaviour _ trace => trace

/-- The status `main` returns, when it returns. -/
def Outcome.status : Outcome → Option Int
  | .returned status _ _ => some status
  | _ => none

/-- What the run wrote to the error stream while reading its arguments. -/
def Outcome.stderr : Outcome → List Diagnostic
  | .returned _ stderr _ => stderr
  | .exitedWithSuccess stderr => stderr
  | .endedByCheckedMalloc stderr _ => stderr
  | .undefinedBehaviour stderr _ => stderr

/-- The input array of a draw. -/
def Event.drawn : Event → Option InputDistributions
  | .setInputDistributionsViaUxHwCall inputDistributions => some inputDistributions
  | _ => none

/-- The estimate and the lines of a call of `printCalibratedValueAndProbabilities`. -/
def Event.reportedTable : Event → Option (Double × Option (List ReportLine))
  | .printCalibratedValueAndProbabilities estimate lines => some (estimate, lines)
  | _ => none

/-- The index and the value of a store into the sample buffer. -/
def Event.storedSample : Event → Option (Nat × Double)
  | .storeSample i value => some (i, value)
  | _ => none

/-- The values a reporting call is handed: the estimate for the benchmarking line and for
`printCalibratedValueAndProbabilities`, the array behind the JSON variable for
`printJSONVariables`. -/
def Event.handedToReport : Event → Option (List Double)
  | .printBenchmarkLine estimate _ => some [estimate]
  | .printCalibratedValueAndProbabilities estimate _ => some [estimate]
  | .printJSONVariables jsonVariable _ => some (jsonVariable.values.getD [])
  | _ => none

/-- The arguments of a call of `saveMonteCarloDoubleDataToDataDotOutFile`. -/
def Event.savedToDataFile : Event → Option (Option (List Double) × Option Nat × Nat)
  | .saveMonteCarloDoubleDataToDataDotOutFile samples microseconds count =>
    some (samples, microseconds, count)
  | _ => none

/-- The arguments of a call of the aggregator. -/
def Event.aggregated : Event → Option (Option (List Double) × Nat)
  | .calculateMeanAndVarianceOfDoubleSamples samples count => some (samples, count)
  | _ => none

/-- Whether a run signals that its statistics are undefined: it does not end by returning
0, or it writes a diagnostic. -/
def Outcome.signalsUndefinedStatistics (outcome : Outcome) : Prop :=
  outcome.status ≠ some 0 ∨ outcome.stderr ≠ []

/-! ## The run in closed form -/

/-- The contents of `outputDistributions` when the evaluation loop has ended: what the last
iteration stored, nothing when there was no iteration. -/
def finalOutputDistributions (env : Environment) (arguments : CommandLineArguments) :
    OutputDistributions :=
  fun _ =>
    if arguments.common.numberOfMonteCarloIterations = 0 then none
    else sampleValue env (arguments.common.numberOfMonteCarloIterations - 1)

/-- The sample buffer when the evaluation loop has ended: `NULL` outside Monte Carlo mode,
else the kernel values of the iterations in order. -/
def finalSamples (env : Environment) (arguments : CommandLineArguments) :
    Option (List Double) :=
  if arguments.common.isMonteCarloMode then
    some ((List.range arguments.common.numberOfMonteCarloIterations).map (sampleValue env))
  else none

/-- The value of `calibratedSensorOutput` at the reporting block of `main`. -/
def finalEstimate (env : Environment) (arguments : CommandLineArguments) : Double :=
  if arguments.common.isMonteCarloMode then
    (env.calculateMeanAndVarianceOfDoubleSamples (finalSamples env arguments)
      arguments.common.numberOfMonteCarloIterations).mean
  else finalOutputDistributions env arguments kOutputDistributionIndexCalibratedCurrent

/-- The value of `cpuTimeUsedSeconds` at the reporting block of `main`: assigned from the
two `clock` readings when timing or benchmarking is enabled, never assigned otherwise. -/
def finalCpuTimeUsedSeconds (env : Environment) (arguments : CommandLineArguments) : Double :=
  if arguments.common.isTimingEnabled || arguments.common.isBenchmarkingMode then
    some (((env.clock 1 - env.clock 0 : ℤ) : ℚ) / (env.CLOCKS_PER_SEC : ℚ))
  else none

/-- The events of `main` up to the end of the evaluation loop. -/
def eventsThroughLoop (env : Environment) (arguments : CommandLineArguments) : List Event :=
  (if arguments.common.isMonteCarloMode then [Event.checkedMalloc (allocationSize arguments)]
  else []) ++
  (if arguments.common.isTimingEnabled || arguments.common.isBenchmarkingMode then
    [Event.clock (env.clock 0)]
  else []) ++
  (List.range arguments.common.numberOfMonteCarloIterations).flatMap
    (iterationEvents env arguments)

/-- The events of the post-processing and "Stop timing" blocks of `main`. -/
def eventsAfterLoop (env : Environment) (arguments : CommandLineArguments) : List Event :=
  (if arguments.common.isMonteCarloMode then
    [Event.calculateMeanAndVarianceOfDoubleSamples (finalSamples env arguments)
      arguments.common.numberOfMonteCarloIterations]
  else []) ++
  (if arguments.common.isTimingEnabled || arguments.common.isBenchmarkingMode then
    [Event.clock (env.clock 1)]
  else [])

/-- The events of the reporting block of `main`. -/
def eventsOfReport (env : Environment) (arguments : CommandLineArguments) : List Event :=
  if arguments.common.isBenchmarkingMode then
    [Event.printBenchmarkLine (finalEstimate env arguments)
      (castToUInt64 (Double.mulConst (finalCpuTimeUsedSeconds env arguments) 1000000))]
  else
    (if !arguments.common.isOutputJSONMode then
      [Event.printCalibratedValueAndProbabilities (finalEstimate env arguments)
        ((finalEstimate env arguments).map
          (printCalibratedValueAndProbabilities env.UxHwDoubleProbabilityGT))]
    else
      [Event.printJSONVariables
        (printJSONFormattedOutput env.kCommonConstantMaxCharsPerJSONVariableDescription
          arguments
          [finalOutputDistributions env arguments kOutputDistributionIndexCalibratedCurrent]
          (finalSamples env arguments)
          "calibratedSensorOutput")
        kOutputDistributionIndexMax]) ++
    (if arguments.common.isTimingEnabled then
      [Event.printCpuTimeUsed (finalCpuTimeUsedSeconds env arguments)]
    else []) ++
    (if arguments.common.isWriteToFileEnabled then
      [Event.writeOutputDoubleDistributionsToCSV arguments.common.outputFilePath
        (finalOutputDistributions env arguments) kOutputDistributionIndexMax]
    else [])

/-- Whether `main` leaves its reporting block through
`return kCommonConstantReturnTypeError`, the CSV writer having failed. -/
def csvWriterFails (env : Environment) (arguments : CommandLineArguments) : Bool :=
  !arguments.common.isBenchmarkingMode && arguments.common.isWriteToFileEnabled &&
    decide ((env.writeOutputDoubleDistributionsToCSV arguments.common.outputFilePath
      (finalOutputDistributions env arguments) kOutputDistributionIndexMax).toInt ≠ 0)

/-- The events of the last block of `main`. -/
def eventsOfSave (env : Environment) (arguments : CommandLineArguments) : List Event :=
  if arguments.common.isMonteCarloMode then
    [Event.saveMonteCarloDoubleDataToDataDotOutFile (finalSamples env arguments)
      (castToUInt64 (Double.mulConst (finalCpuTimeUsedSeconds env arguments) 1000000))
      arguments.common.numberOfMonteCarloIterations,
     Event.free]
  else []

/-! ## The kernel -/

/-- C1: for every pair of input values `Vout`, `Vref`, `calculateSensorOutput` returns
`(Vout - Vref) / 0.075`, stores that value in output channel 0 (`CalibratedCurrent`) and
leaves the input array as it was; at `Vout = 3.3`, `Vref = 2.5` the value is `32/3`, which
`%.2lf` shows as `10.67`. -/
theorem calculateSensorOutput_spec (Vout Vref : ℚ) (outputDistributions : OutputDistributions) :
    (calculateSensorOutput ⟨inputVector Vout Vref, outputDistributions⟩).1
        = some ((Vout - Vref) / 0.075) ∧
      (calculateSensorOutput ⟨inputVector Vout Vref, outputDistributions⟩).2.outputDistributions
          kOutputDistributionIndexCalibratedCurrent
        = some ((Vout - Vref) / 0.075) ∧
      (calculateSensorOutput ⟨inputVector Vout Vref, outputDistributions⟩).2.inputDistributions
        = inputVector Vout Vref ∧
      (calculateSensorOutput ⟨inputVector 3.3 2.5, outputDistributions⟩).1 = some (32 / 3) ∧
      formatTwoDecimals (32 / 3) = 10.67 := by
  have hne : kInputDistributionIndexVref ≠ kInputDistributionIndexVout := by decide
  refine ⟨?_, ?_, rfl, ?_, ?_⟩
  · simp [calculateSensorOutput, inputVector, hne, Double.sub, Double.divConst,
      kSensorCalibrationConstantTMCS1123x3ASensitivity]
    norm_num
  · simp [calculateSensorOutput, inputVector, hne, Double.sub, Double.divConst,
      kSensorCalibrationConstantTMCS1123x3ASensitivity]
    norm_num
  · simp [calculateSensorOutput, inputVector, hne, Double.sub, Double.divConst,
      kSensorCalibrationConstantTMCS1123x3ASensitivity]
    norm_num
  · norm_num [formatTwoDecimals]

/-! ## Validation of the arguments -/

/-- The outcome of `getCommandLineArguments` when the pointer is not `NULL`, parsing
succeeded and help was not requested. -/
theorem getCommandLineArguments_returns
    (parseArgs : CommonCommandLineArguments → Int × CommonCommandLineArguments)
    (initial : CommandLineArguments) (common : CommonCommandLineArguments)
    (hparse : parseArgs zeroCommonCommandLineArguments = (0, common))
    (hhelp : common.isHelpEnabled = false) :
    ∃ status arguments stderr,
      getCommandLineArguments parseArgs (some initial)
        = .returned status (some arguments) stderr ∧
      (status = kCommonConstantReturnTypeError ↔
        (common.isInputFromFileEnabled = true ∨
          (common.isWriteToFileEnabled = true ∧ common.isMonteCarloMode = true) ∨
          (common.isOutputSelected = true ∧ kOutputDistributionIndexMax ≤ common.outputSelect))) ∧
      (status ≠ kCommonConstantReturnTypeError →
        status = kCommonConstantReturnTypeSuccess ∧
        arguments.common.outputSelect < kOutputDistributionIndexMax ∧
        (common.isOutputSelected = false → arguments.common.outputSelect = 0)) ∧
      kOutputDistributionIndexMax = 1 := by
  obtain ⟨path, wr, inp, sel, out, mc, n, tm, bm, js, hl, vb⟩ := common
  simp only at hhelp
  subst hhelp
  by_cases hout : 1 ≤ out <;> cases inp <;> cases wr <;> cases mc <;> cases sel <;>
    simp [getCommandLineArguments, setDefaultCommandLineArguments, hparse, hout,
      kOutputDistributionIndexMax, kOutputDistributionIndexCalibratedCurrent] <;>
    exact ⟨_, _, ⟨rfl, rfl⟩, by simp <;> omega⟩

/-- C4: when the pointer is not `NULL`, parsing succeeded and help was not requested,
`getCommandLineArguments` returns; its status is the error status exactly when input from
file is enabled, or write-to-file and Monte Carlo mode are both enabled, or an output
selector was given with a value of at least the output-channel count (1); otherwise the
status is success, the output selector left in the arguments is below the output-channel
count, and it is 0 when no selector was given. -/
theorem getCommandLineArguments_status
    (parseArgs : CommonCommandLineArguments → Int × CommonCommandLineArguments)
    (initial : CommandLineArguments) (common : CommonCommandLineArguments)
    (hparse : parseArgs zeroCommonCommandLineArguments = (0, common))
    (hhelp : common.isHelpEnabled = false) :
    ∃ status arguments stderr,
      getCommandLineArguments parseArgs (some initial)
        = .returned status (some arguments) stderr ∧
      (status = kCommonConstantReturnTypeError ↔
        (common.isInputFromFileEnabled = true ∨
          (common.isWriteToFileEnabled = true ∧ common.isMonteCarloMode = true) ∨
          (common.isOutputSelected = true ∧ kOutputDistributionIndexMax ≤ common.outputSelect))) ∧
      (status ≠ kCommonConstantReturnTypeError →
        status = kCommonConstantReturnTypeSuccess ∧
        arguments.common.outputSelect < kOutputDistributionIndexMax ∧
        (common.isOutputSelected = false → arguments.common.outputSelect = 0)) ∧
      kOutputDistributionIndexMax = 1 :=
  getCommandLineArguments_returns parseArgs initial common hparse hhelp

/-! ## The evaluation loop -/

theorem setInputDistributionsViaUxHwCall_eq (env : Environment) (call : Nat)
    (a b : InputDistributions) :
    setInputDistributionsViaUxHwCall env call a = setInputDistributionsViaUxHwCall env call b := by
  funext i
  have hi : i = kInputDistributionIndexVout ∨ i = kInputDistributionIndexVref := by
    revert i; decide
  have hne : kInputDistributionIndexVout ≠ kInputDistributionIndexVref := by decide
  rcases hi with rfl | rfl <;> simp [setInputDistributionsViaUxHwCall, hne]

theorem calculateSensorOutput_fst (a : InputDistributions) (b c : OutputDistributions) :
    (calculateSensorOutput ⟨a, b⟩).1 = (calculateSensorOutput ⟨a, c⟩).1 := rfl

theorem storeSamples_succ (env : Environment) (k : Nat) (samples : List Double) :
    storeSamples env (k + 1) samples = (storeSamples env k samples).set k (sampleValue env k) := by
  simp [storeSamples, List.range_succ, List.foldl_append]

theorem storeSamples_replicate (env : Environment) (n k : Nat) (hk : k ≤ n) :
    storeSamples env k (List.replicate n none)
      = (List.range k).map (sampleValue env) ++ List.replicate (n - k) none := by
  induction k with
  | zero => simp [storeSamples]
  | succ k ih =>
    rw [storeSamples_succ, ih (by omega)]
    have hlen : ((List.range k).map (sampleValue env)).length ≤ k := by simp
    rw [List.set_append_right _ _ hlen]
    obtain ⟨m, hm⟩ : ∃ m, n - k = m + 1 := ⟨n - k - 1, by omega⟩
    have hm2 : n - (k + 1) = m := by omega
    simp [hm, hm2, List.replicate_succ, List.range_succ]

theorem storeSamples_length (env : Environment) (k : Nat) (samples : List Double) :
    (storeSamples env k samples).length = samples.length := by
  induction k with
  | zero => simp [storeSamples]
  | succ k ih => rw [storeSamples_succ, List.length_set, ih]

/-- The state after `k` iterations of the loop body, started in a state in which no draw
has been made and the sample buffer, in Monte Carlo mode, has room for `k` samples. -/
theorem evaluationLoop_iterations (env : Environment) (arguments : CommandLineArguments)
    (s : MainState) (h0 : s.uxhwCalls = 0) (hub : s.undefinedBehaviour = false) (k : Nat)
    (hroom : arguments.common.isMonteCarloMode = true →
      ∃ samples, s.monteCarloOutputSamples = some samples ∧ k ≤ samples.length) :
    ((List.range k).foldl (evaluationLoopBody env arguments) s).uxhwCalls = 2 * k ∧
    ((List.range k).foldl (evaluationLoopBody env arguments) s).trace
      = s.trace ++ (List.range k).flatMap (iterationEvents env arguments) ∧
    ((List.range k).foldl (evaluationLoopBody env arguments) s).calibratedSensorOutput
      = (if k = 0 then s.calibratedSensorOutput else sampleValue env (k - 1)) ∧
    ((List.range k).foldl (evaluationLoopBody env arguments) s).outputDistributions
        kOutputDistributionIndexCalibratedCurrent
      = (if k = 0 then s.outputDistributions kOutputDistributionIndexCalibratedCurrent
          else sampleValue env (k - 1)) ∧
    ((List.range k).foldl (evaluationLoopBody env arguments) s).monteCarloOutputSamples
      = (if arguments.common.isMonteCarloMode then
          s.monteCarloOutputSamples.map (storeSamples env k)
        else s.monteCarloOutputSamples) ∧
    ((List.range k).foldl (evaluationLoopBody env arguments) s).start = s.start ∧
    ((List.range k).foldl (evaluationLoopBody env arguments) s).cpuTimeUsedSeconds
      = s.cpuTimeUsedSeconds ∧
    ((List.range k).foldl (evaluationLoopBody env arguments) s).clockCalls = s.clockCalls ∧
    ((List.range k).foldl (evaluationLoopBody env arguments) s).undefinedBehaviour = false := by
  induction k with
  | zero =>
    cases hmc : arguments.common.isMonteCarloMode <;>
      cases hsam : s.monteCarloOutputSamples <;> simp [storeSamples, h0, hsam, hub]
  | succ k ih =>
    have hroomk : arguments.common.isMonteCarloMode = true →
        ∃ samples, s.monteCarloOutputSamples = some samples ∧ k ≤ samples.length := by
      intro hmc
      obtain ⟨samples, hsam, hlen⟩ := hroom hmc
      exact ⟨samples, hsam, by omega⟩
    obtain ⟨hcalls, htrace, -, -, hsamples, hstart, hcpu, hclock, hflag⟩ := ih hroomk
    have hdrawn :
        setInputDistributionsViaUxHwCall env (2 * k)
            ((List.range k).foldl (evaluationLoopBody env arguments) s).inputDistributions
          = drawnInputDistributions env k :=
      setInputDistributionsViaUxHwCall_eq env (2 * k) _ _
    have hvalue : ∀ b : OutputDistributions,
        (calculateSensorOutput ⟨drawnInputDistributions env k, b⟩).1 = sampleValue env k :=
      fun b => rfl
    rw [List.range_succ, List.foldl_append]
    cases hmc : arguments.common.isMonteCarloMode
    · simp [evaluationLoopBody, hmc, hcalls, htrace, hsamples, hstart, hcpu, hclock, hdrawn,
        hvalue, hflag, iterationEvents, List.flatMap_append, Nat.mul_succ]
      simp [calculateSensorOutput, sampleValue]
    · obtain ⟨samples, hsam, hlen⟩ := hroom hmc
      have hsamk :
          ((List.range k).foldl (evaluationLoopBody env arguments) s).monteCarloOutputSamples
            = some (storeSamples env k samples) := by
        rw [hsamples, hsam]
        simp [hmc]
      have hlt : k < (storeSamples env k samples).length := by
        rw [storeSamples_length]
        omega
      simp [evaluationLoopBody, hmc, hcalls, htrace, hsamk, hlt, hstart, hcpu, hclock, hdrawn,
        hvalue, hflag, hsam, iterationEvents, storeSamples_succ, List.flatMap_append,
        Nat.mul_succ]
      simp [calculateSensorOutput, sampleValue]

/-- In Monte Carlo mode, `k` iterations on a buffer of `cells` doubles end in undefined
behaviour exactly when `k` exceeds `cells`. -/
theorem evaluationLoop_undefinedBehaviour (env : Environment)
    (arguments : CommandLineArguments) (hmc : arguments.common.isMonteCarloMode = true)
    (cells : Nat) (s : MainState) (hub : s.undefinedBehaviour = false)
    (hsam : ∃ samples, s.monteCarloOutputSamples = some samples ∧ samples.length = cells)
    (k : Nat) :
    ((List.range k).foldl (evaluationLoopBody env arguments) s).undefinedBehaviour
      = decide (cells < k) ∧
    ∃ samples,
      ((List.range k).foldl (evaluationLoopBody env arguments) s).monteCarloOutputSamples
        = some samples ∧ samples.length = cells := by
  induction k with
  | zero => simpa [hub] using hsam
  | succ k ih =>
    obtain ⟨hflag, samples, hsamk, hlen⟩ := ih
    rw [List.range_succ, List.foldl_append]
    by_cases hk : cells < k
    · have hflag1 :
          ((List.range k).foldl (evaluationLoopBody env arguments) s).undefinedBehaviour
            = true := by
        rw [hflag]
        simp [hk]
      have hk1 : cells < k + 1 := by omega
      simp [evaluationLoopBody, hflag1, hsamk, hlen, hk1]
    · have hflag0 :
          ((List.range k).foldl (evaluationLoopBody env arguments) s).undefinedBehaviour
            = false := by
        rw [hflag]
        simp [hk]
      by_cases hin : k < cells
      · have hk1 : ¬ cells < k + 1 := by omega
        simp [evaluationLoopBody, hflag0, hmc, hsamk, hlen, hin, hk1]
      · have hk1 : cells < k + 1 := by omega
        simp [evaluationLoopBody, hflag0, hmc, hsamk, hlen, hin, hk1]

/-- The evaluation loop prints no table: it leaves the report events of the trace as they
are. -/
theorem evaluationLoop_reportedTable (env : Environment) (arguments : CommandLineArguments)
    (k : Nat) (s : MainState) :
    ((List.range k).foldl (evaluationLoopBody env arguments) s).trace.filterMap
        Event.reportedTable
      = s.trace.filterMap Event.reportedTable := by
  induction k with
  | zero => rfl
  | succ k ih =>
    rw [List.range_succ, List.foldl_append]
    simp only [List.foldl_cons, List.foldl_nil]
    rw [← ih]
    generalize (List.range k).foldl (evaluationLoopBody env arguments) s = r
    by_cases hub : r.undefinedBehaviour = true
    · simp [evaluationLoopBody, hub]
    · cases hmc : arguments.common.isMonteCarloMode
      · simp [evaluationLoopBody, hub, hmc, List.filterMap_append, Event.reportedTable]
      · cases hsam : r.monteCarloOutputSamples with
        | none =>
          simp [evaluationLoopBody, hub, hmc, hsam, List.filterMap_append,
            Event.reportedTable]
        | some samples =>
          by_cases hlt : k < samples.length <;>
            simp [evaluationLoopBody, hub, hmc, hsam, hlt, List.filterMap_append,
              Event.reportedTable]

/-! ## The run up to the end of the evaluation loop -/

theorem outputDistributions_ext (a : OutputDistributions) (v : Double)
    (h : a kOutputDistributionIndexCalibratedCurrent = v) : a = fun _ => v := by
  funext i
  have hi : i = kOutputDistributionIndexCalibratedCurrent := by
    revert i; decide
  rw [hi, h]

theorem allocationSize_of_lt (arguments : CommandLineArguments)
    (hsize : arguments.common.numberOfMonteCarloIterations * sizeofDouble < sizeModulus) :
    allocationSize arguments = arguments.common.numberOfMonteCarloIterations * sizeofDouble ∧
    allocationSize arguments / sizeofDouble = arguments.common.numberOfMonteCarloIterations := by
  have h : allocationSize arguments
      = arguments.common.numberOfMonteCarloIterations * sizeofDouble :=
    Nat.mod_eq_of_lt hsize
  refine ⟨h, ?_⟩
  rw [h]
  simp [sizeofDouble]

/-- The state of `main` at the end of its evaluation loop, when the allocation (made in
Monte Carlo mode only) succeeds and its byte count does not wrap around. -/
theorem stateAfterLoop_eq (env : Environment) (arguments : CommandLineArguments)
    (hmalloc : arguments.common.isMonteCarloMode = true →
      env.checkedMallocSucceeds (allocationSize arguments) = true)
    (hsize : arguments.common.isMonteCarloMode = true →
      arguments.common.numberOfMonteCarloIterations * sizeofDouble < sizeModulus) :
    ∃ s, stateAfterLoop env arguments = some s ∧
      s.trace = eventsThroughLoop env arguments ∧
      s.calibratedSensorOutput
        = finalOutputDistributions env arguments kOutputDistributionIndexCalibratedCurrent ∧
      s.outputDistributions = finalOutputDistributions env arguments ∧
      s.monteCarloOutputSamples = finalSamples env arguments ∧
      s.start
        = (if arguments.common.isTimingEnabled || arguments.common.isBenchmarkingMode then
            some (env.clock 0)
          else none) ∧
      s.cpuTimeUsedSeconds = none ∧
      s.clockCalls
        = (if arguments.common.isTimingEnabled || arguments.common.isBenchmarkingMode then 1
          else 0) ∧
      s.undefinedBehaviour = false := by
  have hstore :
      storeSamples env arguments.common.numberOfMonteCarloIterations
          (List.replicate arguments.common.numberOfMonteCarloIterations none)
        = (List.range arguments.common.numberOfMonteCarloIterations).map (sampleValue env) := by
    rw [storeSamples_replicate env _ _ (le_refl _)]
    simp
  have key : ∀ s0 : MainState, s0.uxhwCalls = 0 → s0.undefinedBehaviour = false →
      allocateSamples env arguments initialState
        = some { s0 with start := none, clockCalls := 0, trace :=
            (if arguments.common.isMonteCarloMode then
              [Event.checkedMalloc (allocationSize arguments)]
            else []) } →
      s0.calibratedSensorOutput = none → s0.cpuTimeUsedSeconds = none →
      s0.outputDistributions = uninitialised kOutputDistributionIndexMax →
      s0.monteCarloOutputSamples
        = (if arguments.common.isMonteCarloMode then
            some (List.replicate arguments.common.numberOfMonteCarloIterations none)
          else none) →
      ∃ s, stateAfterLoop env arguments = some s ∧
        s.trace = eventsThroughLoop env arguments ∧
        s.calibratedSensorOutput
          = finalOutputDistributions env arguments kOutputDistributionIndexCalibratedCurrent ∧
        s.outputDistributions = finalOutputDistributions env arguments ∧
        s.monteCarloOutputSamples = finalSamples env arguments ∧
        s.start
          = (if arguments.common.isTimingEnabled || arguments.common.isBenchmarkingMode then
              some (env.clock 0)
            else none) ∧
        s.cpuTimeUsedSeconds = none ∧
        s.clockCalls
          = (if arguments.common.isTimingEnabled || arguments.common.isBenchmarkingMode then 1
            else 0) ∧
        s.undefinedBehaviour = false := by
    intro s0 h0 hub halloc hcso hcpu hout hsam
    obtain ⟨-, h2, h3, h4, h5, h6, h7, h8, h9⟩ :=
      evaluationLoop_iterations env arguments
        (startTiming env arguments
          { s0 with start := none, clockCalls := 0, trace :=
            (if arguments.common.isMonteCarloMode then
              [Event.checkedMalloc (allocationSize arguments)]
            else []) })
        (by unfold startTiming; split_ifs <;> exact h0)
        (by unfold startTiming; split_ifs <;> exact hub)
        arguments.common.numberOfMonteCarloIterations
        (by
          intro hmc
          refine ⟨List.replicate arguments.common.numberOfMonteCarloIterations none, ?_, ?_⟩
          · unfold startTiming
            split_ifs <;> simp [hsam, hmc]
          · simp)
    refine ⟨_, by simp only [stateAfterLoop, halloc, Option.map_some']; rfl, ?_⟩
    have h4f := outputDistributions_ext _ _ h4
    simp only [evaluationLoop]
    rw [h2, h3, h4f, h5, h6, h7, h8, h9]
    cases hmc : arguments.common.isMonteCarloMode <;>
      cases htb : (arguments.common.isTimingEnabled || arguments.common.isBenchmarkingMode) <;>
      simp [startTiming, htb, hmc, hcso, hcpu, hout, hsam, hstore, eventsThroughLoop,
        finalOutputDistributions, finalSamples, uninitialised] <;>
      funext _ <;> simp [finalOutputDistributions]
  cases hmc : arguments.common.isMonteCarloMode
  · exact key initialState rfl rfl (by simp [allocateSamples, hmc, initialState]) rfl rfl rfl
      (by simp [hmc, initialState])
  · have hm := hmalloc hmc
    have hdiv := (allocationSize_of_lt arguments (hsize hmc)).2
    exact key
      { initialState with
        monteCarloOutputSamples :=
          some (List.replicate arguments.common.numberOfMonteCarloIterations none) }
      rfl rfl (by simp [allocateSamples, hmc, hm, hdiv, initialState]) rfl rfl rfl
      (by simp [hmc])

/-- With validated arguments `main` is `mainWithArguments`. -/
theorem main_of_validated (env : Environment) (arguments : CommandLineArguments)
    (stderr : List Diagnostic) (h : Validated env arguments stderr) :
    main env = mainWithArguments env arguments stderr := by
  unfold Validated at h
  simp [main, h, CommonConstantReturnType.toInt]

/-- Validated arguments do not have write-to-file together with Monte Carlo mode. -/
theorem validated_not_write_and_monteCarlo (env : Environment)
    (arguments : CommandLineArguments) (stderr : List Diagnostic)
    (h : Validated env arguments stderr) :
    (arguments.common.isWriteToFileEnabled && arguments.common.isMonteCarloMode) = false := by
  unfold Validated getCommandLineArguments at h
  simp only [setDefaultCommandLineArguments] at h
  split_ifs at h with h1 h2 h3 h4 h5 h6 <;> simp at h
  all_goals
    obtain ⟨h, -⟩ := h
    rw [← h]
    simpa using h4

/-! ## The run in closed form -/

/-- The whole run of `main` on validated arguments, when the allocation (made in Monte Carlo
mode only) succeeds. -/
theorem mainWithArguments_eq (env : Environment) (arguments : CommandLineArguments)
    (stderr : List Diagnostic)
    (hmalloc : arguments.common.isMonteCarloMode = true →
      env.checkedMallocSucceeds (allocationSize arguments) = true)
    (hsize : arguments.common.isMonteCarloMode = true →
      arguments.common.numberOfMonteCarloIterations * sizeofDouble < sizeModulus) :
    mainWithArguments env arguments stderr
      = (if csvWriterFails env arguments then
          Outcome.returned kCommonConstantReturnTypeError.toInt stderr
            (eventsThroughLoop env arguments ++ eventsAfterLoop env arguments ++
              eventsOfReport env arguments)
        else
          Outcome.returned 0 stderr
            (eventsThroughLoop env arguments ++ eventsAfterLoop env arguments ++
              eventsOfReport env arguments ++ eventsOfSave env arguments)) := by
  obtain ⟨s, hs, htrace, hcso, hout, hsam, hstart, hcpu, hclock, hub⟩ :=
    stateAfterLoop_eq env arguments hmalloc hsize
  unfold mainWithArguments
  rw [hs]
  simp only [hub]
  cases hmc : arguments.common.isMonteCarloMode <;>
    cases ht : arguments.common.isTimingEnabled <;>
    cases hb : arguments.common.isBenchmarkingMode <;>
    cases hj : arguments.common.isOutputJSONMode <;>
    cases hw : arguments.common.isWriteToFileEnabled <;>
    simp [postProcess, stopTiming, reportResults, saveAndFree, csvWriterFails,
      eventsAfterLoop, eventsOfReport, eventsOfSave, finalEstimate, finalCpuTimeUsedSeconds,
      hmc, ht, hb, hj, hw, htrace, hcso, hout, hsam, hstart, hcpu, hclock]

/-! ## The tail-probability report -/

/-- C7: for every central estimate `c`, `printCalibratedValueAndProbabilities` reports
exactly eight tail probabilities, in this order: for `k = 0.01, 0.05, 0.10, 0.15` the
"smaller than" entry `1 - P(X > c * (1 - k))`, then for the same four `k` the "greater than"
entry `P(X > c * (1 + k))`, `P(X > t)` being the tail query. -/
theorem printCalibratedValueAndProbabilities_tailEntries
    (UxHwDoubleProbabilityGT : ℚ → ℚ → ℚ) (c : ℚ) :
    (printCalibratedValueAndProbabilities UxHwDoubleProbabilityGT c).filter
        ReportLine.isTailProbability
      = reportedOffsets.map
          (fun pk => ReportLine.smallerThan pk.1 c
            (1 - UxHwDoubleProbabilityGT c (c * (1 - pk.2)))) ++
        reportedOffsets.map
          (fun pk => ReportLine.greaterThan pk.1 c
            (UxHwDoubleProbabilityGT c (c * (1 + pk.2)))) ∧
    ((printCalibratedValueAndProbabilities UxHwDoubleProbabilityGT c).filter
        ReportLine.isTailProbability).length = 8 ∧
    reportedOffsets.map Prod.snd = [1 / 100, 5 / 100, 10 / 100, 15 / 100] := by
  have h1 : (1.01 : ℚ) * c = c * (1 + 0.01) := by ring
  have h5 : (1.05 : ℚ) * c = c * (1 + 0.05) := by ring
  have h10 : (1.1 : ℚ) * c = c * (1 + 0.10) := by ring
  have h15 : (1.15 : ℚ) * c = c * (1 + 0.15) := by ring
  have h10s : c * (1 - 0.1 : ℚ) = c * (1 - 0.10) := by ring
  refine ⟨?_, ?_, ?_⟩
  · simp only [printCalibratedValueAndProbabilities, reportedOffsets, h1, h5, h10, h15, h10s]
    rfl
  · rfl
  · simp [reportedOffsets]
    norm_num

theorem pointMassProbabilityGT_antitone (x value : ℚ) (s t : ℚ) (hst : s ≤ t) :
    pointMassProbabilityGT x value t ≤ pointMassProbabilityGT x value s := by
  unfold pointMassProbabilityGT
  by_cases ht : t < x
  · have hs : s < x := lt_of_le_of_lt hst ht
    simp [ht, hs]
  · by_cases hs : s < x <;> simp [ht, hs]

/-- C8 as stated fails for a negative central estimate: at `c = -1`, for the distribution
concentrated at `-1.1` (whose tail query is non-increasing in the threshold), the "greater
than 1.15c" probability reported is 1 and the "greater than 1.01c" probability reported is
0. -/
theorem greaterThan_order_fails_for_negative_estimate :
    (∀ s t : ℚ, s ≤ t →
      pointMassProbabilityGT (-11 / 10) (-1) t ≤ pointMassProbabilityGT (-11 / 10) (-1) s) ∧
    greaterThanProbability 15
        (printCalibratedValueAndProbabilities (pointMassProbabilityGT (-11 / 10)) (-1))
      = some 1 ∧
    greaterThanProbability 1
        (printCalibratedValueAndProbabilities (pointMassProbabilityGT (-11 / 10)) (-1))
      = some 0 ∧
    ¬ ((1 : ℚ) ≤ 0) := by
  refine ⟨fun s t hst => pointMassProbabilityGT_antitone _ _ s t hst, ?_, ?_, by norm_num⟩
  · simp [printCalibratedValueAndProbabilities, greaterThanProbability, pointMassProbabilityGT]
    norm_num
  · simp [printCalibratedValueAndProbabilities, greaterThanProbability, pointMassProbabilityGT]
    norm_num

/-- C8, amended: for every central estimate `c ≥ 0` and every tail query non-increasing in
its threshold, the "greater than 1.15c" probability reported by
`printCalibratedValueAndProbabilities` is at most the "greater than 1.01c" probability it
reports. -/
theorem greaterThan_order_of_nonneg (UxHwDoubleProbabilityGT : ℚ → ℚ → ℚ) (c : ℚ)
    (hc : 0 ≤ c)
    (hmono : ∀ s t : ℚ, s ≤ t → UxHwDoubleProbabilityGT c t ≤ UxHwDoubleProbabilityGT c s) :
    ∃ p15 p1 : ℚ,
      greaterThanProbability 15
          (printCalibratedValueAndProbabilities UxHwDoubleProbabilityGT c) = some p15 ∧
      greaterThanProbability 1
          (printCalibratedValueAndProbabilities UxHwDoubleProbabilityGT c) = some p1 ∧
      p15 = UxHwDoubleProbabilityGT c (1.15 * c) ∧
      p1 = UxHwDoubleProbabilityGT c (1.01 * c) ∧
      p15 ≤ p1 := by
  refine ⟨_, _, ?_, ?_, rfl, rfl, ?_⟩
  · simp [printCalibratedValueAndProbabilities, greaterThanProbability]
  · simp [printCalibratedValueAndProbabilities, greaterThanProbability]
  · apply hmono
    nlinarith

theorem greaterThan_order_of_nonneg_witness :
    (0 : ℚ) ≤ 32 / 3 ∧
    ∃ p15 p1 : ℚ,
      greaterThanProbability 15
          (printCalibratedValueAndProbabilities (pointMassProbabilityGT 11) (32 / 3))
        = some p15 ∧
      greaterThanProbability 1
          (printCalibratedValueAndProbabilities (pointMassProbabilityGT 11) (32 / 3))
        = some p1 ∧
      p15 = pointMassProbabilityGT 11 (32 / 3) (1.15 * (32 / 3)) ∧
      p1 = pointMassProbabilityGT 11 (32 / 3) (1.01 * (32 / 3)) ∧
      p15 ≤ p1 :=
  ⟨by norm_num,
    greaterThan_order_of_nonneg (pointMassProbabilityGT 11) (32 / 3) (by norm_num)
      (fun s t hst => pointMassProbabilityGT_antitone 11 (32 / 3) s t hst)⟩

theorem getCommandLineArguments_status_witness :
    (exampleEnvironment selectorOneConfiguration).parseArgs zeroCommonCommandLineArguments
      = (0, selectorOneConfiguration) ∧
    selectorOneConfiguration.isHelpEnabled = false ∧
    ∃ status arguments stderr,
      getCommandLineArguments (exampleEnvironment selectorOneConfiguration).parseArgs
          (some setDefaultCommandLineArguments)
        = .returned status (some arguments) stderr ∧
      (status = kCommonConstantReturnTypeError ↔
        (selectorOneConfiguration.isInputFromFileEnabled = true ∨
          (selectorOneConfiguration.isWriteToFileEnabled = true ∧
            selectorOneConfiguration.isMonteCarloMode = true) ∨
          (selectorOneConfiguration.isOutputSelected = true ∧
            kOutputDistributionIndexMax ≤ selectorOneConfiguration.outputSelect))) ∧
      (status ≠ kCommonConstantReturnTypeError →
        status = kCommonConstantReturnTypeSuccess ∧
        arguments.common.outputSelect < kOutputDistributionIndexMax ∧
        (selectorOneConfiguration.isOutputSelected = false →
          arguments.common.outputSelect = 0)) ∧
      kOutputDistributionIndexMax = 1 :=
  ⟨rfl, rfl,
    getCommandLineArguments_status (exampleEnvironment selectorOneConfiguration).parseArgs
      setDefaultCommandLineArguments selectorOneConfiguration rfl rfl⟩

/-! ## Rejected arguments -/

/-- C5: when `getCommandLineArguments` rejects the configuration, `main` returns a non-zero
status with an empty trace: no allocation, no draw, no kernel evaluation, no report and no
file output. In particular a configuration whose output selector equals the output-channel
count (1) is rejected. -/
theorem main_rejected (env : Environment) :
    (∀ arguments stderr,
      getCommandLineArguments env.parseArgs (some { common := zeroCommonCommandLineArguments })
        = .returned kCommonConstantReturnTypeError arguments stderr →
      main env = .returned kCommonConstantReturnTypeError.toInt stderr [] ∧
      kCommonConstantReturnTypeError.toInt ≠ 0 ∧
      (main env).trace = []) ∧
    (∀ common, env.parseArgs zeroCommonCommandLineArguments = (0, common) →
      common.isHelpEnabled = false → common.isOutputSelected = true →
      common.outputSelect = kOutputDistributionIndexMax →
      ∃ arguments stderr,
        getCommandLineArguments env.parseArgs
            (some { common := zeroCommonCommandLineArguments })
          = .returned kCommonConstantReturnTypeError arguments stderr) := by
  constructor
  · intro arguments stderr h
    have hmain : main env = .returned kCommonConstantReturnTypeError.toInt stderr [] := by
      simp [main, h, CommonConstantReturnType.toInt]
    refine ⟨hmain, by decide, ?_⟩
    rw [hmain]
    rfl
  · intro common hparse hhelp hsel hout
    obtain ⟨status, arguments, stderr, hret, hiff, -⟩ :=
      getCommandLineArguments_returns env.parseArgs
        { common := zeroCommonCommandLineArguments } common hparse hhelp
    have hstatus : status = kCommonConstantReturnTypeError :=
      hiff.mpr (Or.inr (Or.inr ⟨hsel, le_of_eq hout.symm⟩))
    exact ⟨some arguments, stderr, hstatus ▸ hret⟩

theorem main_rejected_witness :
    getCommandLineArguments (exampleEnvironment selectorOneConfiguration).parseArgs
        (some { common := zeroCommonCommandLineArguments })
      = .returned kCommonConstantReturnTypeError (some { common := selectorOneConfiguration })
          [Diagnostic.outputSelectValueTooLarge 1 0] ∧
    (main (exampleEnvironment selectorOneConfiguration)
        = .returned kCommonConstantReturnTypeError.toInt
            [Diagnostic.outputSelectValueTooLarge 1 0] [] ∧
      kCommonConstantReturnTypeError.toInt ≠ 0 ∧
      (main (exampleEnvironment selectorOneConfiguration)).trace = []) :=
  ⟨rfl, (main_rejected (exampleEnvironment selectorOneConfiguration)).1 _ _ rfl⟩

/-! ## Reading the trace of a run -/

/-- The trace of `main` on validated arguments, when the allocation succeeds. -/
theorem main_trace (env : Environment) (arguments : CommandLineArguments)
    (stderr : List Diagnostic) (hv : Validated env arguments stderr)
    (hmalloc : arguments.common.isMonteCarloMode = true →
      env.checkedMallocSucceeds (allocationSize arguments) = true)
    (hsize : arguments.common.isMonteCarloMode = true →
      arguments.common.numberOfMonteCarloIterations * sizeofDouble < sizeModulus) :
    (main env).trace
      = eventsThroughLoop env arguments ++ eventsAfterLoop env arguments ++
          eventsOfReport env arguments ++
          (if csvWriterFails env arguments then [] else eventsOfSave env arguments) ∧
    (main env).stderr = stderr ∧
    (main env).status
      = some (if csvWriterFails env arguments then kCommonConstantReturnTypeError.toInt
          else 0) := by
  rw [main_of_validated env arguments stderr hv, mainWithArguments_eq env arguments stderr hmalloc hsize]
  cases csvWriterFails env arguments <;> simp [Outcome.trace, Outcome.stderr, Outcome.status]

/-- In Monte Carlo mode the CSV writer is not called, so it cannot fail. -/
theorem csvWriterFails_monteCarlo (env : Environment) (arguments : CommandLineArguments)
    (stderr : List Diagnostic) (hv : Validated env arguments stderr)
    (hmc : arguments.common.isMonteCarloMode = true) :
    csvWriterFails env arguments = false := by
  have h := validated_not_write_and_monteCarlo env arguments stderr hv
  rw [hmc] at h
  simp at h
  simp [csvWriterFails, h]

theorem trace_drawn (env : Environment) (arguments : CommandLineArguments)
    (stderr : List Diagnostic) (hv : Validated env arguments stderr)
    (hmalloc : arguments.common.isMonteCarloMode = true →
      env.checkedMallocSucceeds (allocationSize arguments) = true)
    (hsize : arguments.common.isMonteCarloMode = true →
      arguments.common.numberOfMonteCarloIterations * sizeofDouble < sizeModulus) :
    (main env).trace.filterMap Event.drawn
      = (List.range arguments.common.numberOfMonteCarloIterations).map
          (drawnInputDistributions env) := by
  rw [(main_trace env arguments stderr hv hmalloc hsize).1, List.map_eq_flatMap]
  cases hmc : arguments.common.isMonteCarloMode <;>
    cases ht : arguments.common.isTimingEnabled <;>
    cases hb : arguments.common.isBenchmarkingMode <;>
    cases hj : arguments.common.isOutputJSONMode <;>
    cases hw : arguments.common.isWriteToFileEnabled <;>
    cases hc : csvWriterFails env arguments <;>
    simp [eventsThroughLoop, eventsAfterLoop, eventsOfReport, eventsOfSave, iterationEvents,
      List.filterMap_append, List.filterMap_flatMap, Event.drawn, hmc, ht, hb, hj, hw]

theorem trace_storedSample (env : Environment) (arguments : CommandLineArguments)
    (stderr : List Diagnostic) (hv : Validated env arguments stderr)
    (hmalloc : arguments.common.isMonteCarloMode = true →
      env.checkedMallocSucceeds (allocationSize arguments) = true)
    (hsize : arguments.common.isMonteCarloMode = true →
      arguments.common.numberOfMonteCarloIterations * sizeofDouble < sizeModulus) :
    (main env).trace.filterMap Event.storedSample
      = (if arguments.common.isMonteCarloMode then
          (List.range arguments.common.numberOfMonteCarloIterations).map
            (fun i => (i, sampleValue env i))
        else []) := by
  rw [(main_trace env arguments stderr hv hmalloc hsize).1, List.map_eq_flatMap]
  cases hmc : arguments.common.isMonteCarloMode <;>
    cases ht : arguments.common.isTimingEnabled <;>
    cases hb : arguments.common.isBenchmarkingMode <;>
    cases hj : arguments.common.isOutputJSONMode <;>
    cases hw : arguments.common.isWriteToFileEnabled <;>
    cases hc : csvWriterFails env arguments <;>
    simp [eventsThroughLoop, eventsAfterLoop, eventsOfReport, eventsOfSave, iterationEvents,
      List.filterMap_append, List.filterMap_flatMap, Event.storedSample, hmc, ht, hb, hj, hw]

theorem trace_aggregated (env : Environment) (arguments : CommandLineArguments)
    (stderr : List Diagnostic) (hv : Validated env arguments stderr)
    (hmalloc : arguments.common.isMonteCarloMode = true →
      env.checkedMallocSucceeds (allocationSize arguments) = true)
    (hsize : arguments.common.isMonteCarloMode = true →
      arguments.common.numberOfMonteCarloIterations * sizeofDouble < sizeModulus) :
    (main env).trace.filterMap Event.aggregated
      = (if arguments.common.isMonteCarloMode then
          [(finalSamples env arguments, arguments.common.numberOfMonteCarloIterations)]
        else []) := by
  rw [(main_trace env arguments stderr hv hmalloc hsize).1]
  cases hmc : arguments.common.isMonteCarloMode <;>
    cases ht : arguments.common.isTimingEnabled <;>
    cases hb : arguments.common.isBenchmarkingMode <;>
    cases hj : arguments.common.isOutputJSONMode <;>
    cases hw : arguments.common.isWriteToFileEnabled <;>
    cases hc : csvWriterFails env arguments <;>
    simp [eventsThroughLoop, eventsAfterLoop, eventsOfReport, eventsOfSave, iterationEvents,
      List.filterMap_append, List.filterMap_flatMap, Event.aggregated, hmc, ht, hb, hj, hw]

theorem trace_handedToReport (env : Environment) (arguments : CommandLineArguments)
    (stderr : List Diagnostic) (hv : Validated env arguments stderr)
    (hmalloc : arguments.common.isMonteCarloMode = true →
      env.checkedMallocSucceeds (allocationSize arguments) = true)
    (hsize : arguments.common.isMonteCarloMode = true →
      arguments.common.numberOfMonteCarloIterations * sizeofDouble < sizeModulus) :
    (main env).trace.filterMap Event.handedToReport
      = [if !arguments.common.isBenchmarkingMode && arguments.common.isOutputJSONMode then
          (if arguments.common.isMonteCarloMode then (finalSamples env arguments).getD []
            else
              [finalOutputDistributions env arguments
                kOutputDistributionIndexCalibratedCurrent])
        else [finalEstimate env arguments]] := by
  rw [(main_trace env arguments stderr hv hmalloc hsize).1]
  cases hmc : arguments.common.isMonteCarloMode <;>
    cases ht : arguments.common.isTimingEnabled <;>
    cases hb : arguments.common.isBenchmarkingMode <;>
    cases hj : arguments.common.isOutputJSONMode <;>
    cases hw : arguments.common.isWriteToFileEnabled <;>
    cases hc : csvWriterFails env arguments <;>
    simp [eventsThroughLoop, eventsAfterLoop, eventsOfReport, eventsOfSave, iterationEvents,
      List.filterMap_append, List.filterMap_flatMap, Event.handedToReport,
      printJSONFormattedOutput, hmc, ht, hb, hj, hw]

theorem trace_reportedTable (env : Environment) (arguments : CommandLineArguments)
    (stderr : List Diagnostic) (hv : Validated env arguments stderr)
    (hmalloc : arguments.common.isMonteCarloMode = true →
      env.checkedMallocSucceeds (allocationSize arguments) = true)
    (hsize : arguments.common.isMonteCarloMode = true →
      arguments.common.numberOfMonteCarloIterations * sizeofDouble < sizeModulus) :
    (main env).trace.filterMap Event.reportedTable
      = (if !arguments.common.isBenchmarkingMode && !arguments.common.isOutputJSONMode then
          [(finalEstimate env arguments,
            (finalEstimate env arguments).map
              (printCalibratedValueAndProbabilities env.UxHwDoubleProbabilityGT))]
        else []) := by
  rw [(main_trace env arguments stderr hv hmalloc hsize).1]
  cases hmc : arguments.common.isMonteCarloMode <;>
    cases ht : arguments.common.isTimingEnabled <;>
    cases hb : arguments.common.isBenchmarkingMode <;>
    cases hj : arguments.common.isOutputJSONMode <;>
    cases hw : arguments.common.isWriteToFileEnabled <;>
    cases hc : csvWriterFails env arguments <;>
    simp [eventsThroughLoop, eventsAfterLoop, eventsOfReport, eventsOfSave, iterationEvents,
      List.filterMap_append, List.filterMap_flatMap, Event.reportedTable, hmc, ht, hb, hj, hw]

theorem trace_savedToDataFile (env : Environment) (arguments : CommandLineArguments)
    (stderr : List Diagnostic) (hv : Validated env arguments stderr)
    (hmc : arguments.common.isMonteCarloMode = true)
    (hmalloc : env.checkedMallocSucceeds (allocationSize arguments) = true)
    (hsize : arguments.common.numberOfMonteCarloIterations * sizeofDouble < sizeModulus) :
    (main env).trace.filterMap Event.savedToDataFile
      = [(finalSamples env arguments,
          castToUInt64 (Double.mulConst (finalCpuTimeUsedSeconds env arguments) 1000000),
          arguments.common.numberOfMonteCarloIterations)] := by
  rw [(main_trace env arguments stderr hv (fun _ => hmalloc) (fun _ => hsize)).1,
    csvWriterFails_monteCarlo env arguments stderr hv hmc]
  cases ht : arguments.common.isTimingEnabled <;>
    cases hb : arguments.common.isBenchmarkingMode <;>
    cases hj : arguments.common.isOutputJSONMode <;>
    cases hw : arguments.common.isWriteToFileEnabled <;>
    simp [eventsThroughLoop, eventsAfterLoop, eventsOfReport, eventsOfSave, iterationEvents,
      List.filterMap_append, List.filterMap_flatMap, Event.savedToDataFile, hmc, ht, hb, hj,
      hw]

theorem sampleValue_exampleEnvironment (common : CommonCommandLineArguments) (i : Nat) :
    sampleValue (exampleEnvironment common) i = some (32 / 3) := by
  have hne : kInputDistributionIndexVout ≠ kInputDistributionIndexVref := by decide
  simp [sampleValue, calculateSensorOutput, drawnInputDistributions,
    setInputDistributionsViaUxHwCall, exampleEnvironment, hne, Double.sub, Double.divConst,
    kSensorCalibrationConstantTMCS1123x3ASensitivity,
    kDefaultInputDistributionVoutUniformDistLow, kDefaultInputDistributionVoutUniformDistHigh,
    kDefaultInputDistributionVrefUniformDistLow, kDefaultInputDistributionVrefUniformDistHigh]
  norm_num

/-- The sample buffer at the end of the evaluation loop, in Monte Carlo mode, when the byte
count of the allocation does not wrap around. -/
theorem stateAfterLoop_samples (env : Environment) (arguments : CommandLineArguments)
    (hmc : arguments.common.isMonteCarloMode = true)
    (hmalloc : env.checkedMallocSucceeds (allocationSize arguments) = true)
    (hsize : arguments.common.numberOfMonteCarloIterations * sizeofDouble < sizeModulus) :
    ∃ s, stateAfterLoop env arguments = some s ∧
      s.monteCarloOutputSamples
        = some ((List.range arguments.common.numberOfMonteCarloIterations).map
            (sampleValue env)) ∧
      s.undefinedBehaviour = false := by
  obtain ⟨s, hs, -, -, -, hsam, -, -, -, hub⟩ :=
    stateAfterLoop_eq env arguments (fun _ => hmalloc) (fun _ => hsize)
  exact ⟨s, hs, by rw [hsam]; simp [finalSamples, hmc], hub⟩

/-- C3: for every validated configuration in Monte Carlo mode with iteration count `n`
(the allocation having succeeded, its byte count `n * sizeof(double)` being below the
wrap-around of `size_t`), at the end of the evaluation loop of `main` the sample buffer has
length exactly `n` and its entry `i`, for every `i < n`, is the kernel applied to the `i`-th
drawn input array; no store fell outside the buffer; the stores are those of the indices
`0, ..., n - 1`, one each, in the order of the draws; the aggregator is then called, once, on
that buffer with count `n`, and the run returns 0. -/
theorem main_monteCarlo_samples (env : Environment) (arguments : CommandLineArguments)
    (stderr : List Diagnostic) (hv : Validated env arguments stderr)
    (hmc : arguments.common.isMonteCarloMode = true)
    (hmalloc : env.checkedMallocSucceeds (allocationSize arguments) = true)
    (hsize : arguments.common.numberOfMonteCarloIterations * sizeofDouble < sizeModulus) :
    ∃ s samples,
      stateAfterLoop env arguments = some s ∧
      s.monteCarloOutputSamples = some samples ∧
      s.undefinedBehaviour = false ∧
      samples.length = arguments.common.numberOfMonteCarloIterations ∧
      (∀ i, i < arguments.common.numberOfMonteCarloIterations →
        samples[i]? = some (sampleValue env i)) ∧
      (main env).trace.filterMap Event.drawn
        = (List.range arguments.common.numberOfMonteCarloIterations).map
            (drawnInputDistributions env) ∧
      (main env).trace.filterMap Event.storedSample
        = (List.range arguments.common.numberOfMonteCarloIterations).map
            (fun i => (i, sampleValue env i)) ∧
      (main env).trace.filterMap Event.aggregated
        = [(some samples, arguments.common.numberOfMonteCarloIterations)] ∧
      (main env).status = some 0 ∧
      ∃ rest, (main env).trace
        = eventsThroughLoop env arguments ++
            Event.calculateMeanAndVarianceOfDoubleSamples (some samples)
              arguments.common.numberOfMonteCarloIterations :: rest := by
  obtain ⟨s, hs, hsam, hub⟩ := stateAfterLoop_samples env arguments hmc hmalloc hsize
  have hm : arguments.common.isMonteCarloMode = true →
      env.checkedMallocSucceeds (allocationSize arguments) = true := fun _ => hmalloc
  have hz : arguments.common.isMonteCarloMode = true →
      arguments.common.numberOfMonteCarloIterations * sizeofDouble < sizeModulus :=
    fun _ => hsize
  refine ⟨s, _, hs, hsam, hub, by simp, ?_, trace_drawn env arguments stderr hv hm hz,
    ?_, ?_, ?_, ?_⟩
  · intro i hi
    simp [hi]
  · rw [trace_storedSample env arguments stderr hv hm hz]
    simp [hmc]
  · rw [trace_aggregated env arguments stderr hv hm hz]
    simp [hmc, finalSamples]
  · rw [(main_trace env arguments stderr hv hm hz).2.2,
      csvWriterFails_monteCarlo env arguments stderr hv hmc]
    rfl
  · rw [(main_trace env arguments stderr hv hm hz).1]
    simp [eventsAfterLoop, hmc, finalSamples]

theorem main_monteCarlo_samples_witness :
    Validated (exampleEnvironment (monteCarloConfiguration 3))
      { common := monteCarloConfiguration 3 } [] ∧
    (monteCarloConfiguration 3).isMonteCarloMode = true ∧
    (exampleEnvironment (monteCarloConfiguration 3)).checkedMallocSucceeds
      (allocationSize { common := monteCarloConfiguration 3 }) = true ∧
    (monteCarloConfiguration 3).numberOfMonteCarloIterations * sizeofDouble < sizeModulus ∧
    ∃ s samples,
      stateAfterLoop (exampleEnvironment (monteCarloConfiguration 3))
        { common := monteCarloConfiguration 3 } = some s ∧
      s.monteCarloOutputSamples = some samples ∧
      s.undefinedBehaviour = false ∧
      samples.length = 3 ∧
      (∀ i, i < 3 →
        samples[i]? = some (sampleValue (exampleEnvironment (monteCarloConfiguration 3)) i)) ∧
      (main (exampleEnvironment (monteCarloConfiguration 3))).trace.filterMap Event.drawn
        = (List.range 3).map
            (drawnInputDistributions (exampleEnvironment (monteCarloConfiguration 3))) ∧
      (main (exampleEnvironment (monteCarloConfiguration 3))).trace.filterMap
          Event.storedSample
        = (List.range 3).map
            (fun i => (i, sampleValue (exampleEnvironment (monteCarloConfiguration 3)) i)) ∧
      (main (exampleEnvironment (monteCarloConfiguration 3))).trace.filterMap Event.aggregated
        = [(some samples, 3)] ∧
      (main (exampleEnvironment (monteCarloConfiguration 3))).status = some 0 ∧
      ∃ rest, (main (exampleEnvironment (monteCarloConfiguration 3))).trace
        = eventsThroughLoop (exampleEnvironment (monteCarloConfiguration 3))
            { common := monteCarloConfiguration 3 } ++
            Event.calculateMeanAndVarianceOfDoubleSamples (some samples) 3 :: rest :=
  ⟨rfl, rfl, rfl, by decide,
    main_monteCarlo_samples (exampleEnvironment (monteCarloConfiguration 3))
      { common := monteCarloConfiguration 3 } [] rfl rfl rfl (by decide)⟩

/-! ## The tail-probability table and the mode -/

/-- C6 as stated fails: in Monte Carlo mode with two iterations and neither the
benchmarking nor the JSON option, a validated configuration, `main` calls
`printCalibratedValueAndProbabilities` on the mean of the samples, which makes the eight
tail-probability queries and prints their lines. -/
theorem main_monteCarlo_prints_tail_table :
    Validated (exampleEnvironment (monteCarloConfiguration 2))
      { common := monteCarloConfiguration 2 } [] ∧
    (monteCarloConfiguration 2).isMonteCarloMode = true ∧
    (main (exampleEnvironment (monteCarloConfiguration 2))).trace.filterMap
        Event.reportedTable
      = [(some (32 / 3),
          some (printCalibratedValueAndProbabilities (pointMassProbabilityGT 11) (32 / 3)))] ∧
    ((printCalibratedValueAndProbabilities (pointMassProbabilityGT 11) (32 / 3)).filter
      ReportLine.isTailProbability).length = 8 := by
  have hv : Validated (exampleEnvironment (monteCarloConfiguration 2))
      { common := monteCarloConfiguration 2 } [] := rfl
  have hmean : finalEstimate (exampleEnvironment (monteCarloConfiguration 2))
      { common := monteCarloConfiguration 2 } = some (32 / 3) := by
    simp [finalEstimate, finalSamples, monteCarloConfiguration, defaultConfiguration,
      zeroCommonCommandLineArguments, List.range_succ, sampleValue_exampleEnvironment]
    simp [exampleEnvironment, twoPassMeanAndVariance, definedSamples]
  refine ⟨hv, rfl, ?_, rfl⟩
  rw [trace_reportedTable _ _ _ hv (fun _ => rfl) (fun _ => by decide), hmean]
  rfl

/-- In Monte Carlo mode, when the byte count of the allocation wraps around, the buffer is
too short for the iteration count: the run ends in undefined behaviour inside the evaluation
loop, before any report. -/
theorem mainWithArguments_wraps (env : Environment) (arguments : CommandLineArguments)
    (stderr : List Diagnostic) (hmc : arguments.common.isMonteCarloMode = true)
    (hmalloc : env.checkedMallocSucceeds (allocationSize arguments) = true)
    (hwrap : sizeModulus ≤ arguments.common.numberOfMonteCarloIterations * sizeofDouble) :
    ∃ trace, mainWithArguments env arguments stderr = .undefinedBehaviour stderr trace ∧
      trace.filterMap Event.reportedTable = [] := by
  have hlt : allocationSize arguments < sizeModulus := Nat.mod_lt _ (by decide)
  have hcells : allocationSize arguments / sizeofDouble
      < arguments.common.numberOfMonteCarloIterations := by
    simp only [sizeofDouble] at *
    omega
  have hstart : ∀ s0 : MainState,
      (startTiming env arguments s0).undefinedBehaviour = s0.undefinedBehaviour ∧
      (startTiming env arguments s0).monteCarloOutputSamples = s0.monteCarloOutputSamples ∧
      ((startTiming env arguments s0).trace.filterMap Event.reportedTable
        = s0.trace.filterMap Event.reportedTable) := by
    intro s0
    unfold startTiming
    split_ifs <;> simp [List.filterMap_append, Event.reportedTable]
  have key : ∀ s1 : MainState, s1.undefinedBehaviour = false →
      s1.monteCarloOutputSamples
        = some (List.replicate (allocationSize arguments / sizeofDouble) none) →
      s1.trace.filterMap Event.reportedTable = [] →
      allocateSamples env arguments initialState = some s1 →
      ∃ trace, mainWithArguments env arguments stderr = .undefinedBehaviour stderr trace ∧
        trace.filterMap Event.reportedTable = [] := by
    intro s1 hub1 hsam1 htable1 halloc
    obtain ⟨hub, hsam, htable⟩ := hstart s1
    obtain ⟨hflag, -⟩ :=
      evaluationLoop_undefinedBehaviour env arguments hmc
        (allocationSize arguments / sizeofDouble) (startTiming env arguments s1)
        (hub.trans hub1) ⟨_, hsam.trans hsam1, by simp⟩
        arguments.common.numberOfMonteCarloIterations
    have htrace := evaluationLoop_reportedTable env arguments
      arguments.common.numberOfMonteCarloIterations (startTiming env arguments s1)
    refine ⟨(evaluationLoop env arguments (startTiming env arguments s1)).trace, ?_, ?_⟩
    · unfold mainWithArguments stateAfterLoop
      rw [halloc]
      simp only [Option.map_some', evaluationLoop]
      rw [hflag]
      simp [hcells]
    · simp only [evaluationLoop]
      rw [htrace, htable, htable1]
  exact key
    { initialState with
      monteCarloOutputSamples :=
        some (List.replicate (allocationSize arguments / sizeofDouble) none)
      trace := [Event.checkedMalloc (allocationSize arguments)] }
    rfl rfl (by simp [Event.reportedTable])
    (by simp [allocateSamples, hmc, hmalloc, initialState])

/-- C6, amended: for every validated configuration (the allocation having succeeded), the
tail-probability table is produced exactly when the benchmarking and the JSON option are
both off, in Monte Carlo mode as outside it, by one call of
`printCalibratedValueAndProbabilities` on the final estimate; in Monte Carlo mode that
estimate is the mean the aggregator returns for the samples. The one exception is a Monte
Carlo run whose byte count `n * sizeof(double)` wraps around in `size_t`: it stores outside
its buffer inside the evaluation loop and reports nothing. -/
theorem main_tail_table (env : Environment) (arguments : CommandLineArguments)
    (stderr : List Diagnostic) (hv : Validated env arguments stderr)
    (hmalloc : arguments.common.isMonteCarloMode = true →
      env.checkedMallocSucceeds (allocationSize arguments) = true) :
    (main env).trace.filterMap Event.reportedTable
      = (if arguments.common.isMonteCarloMode &&
            decide (sizeModulus
              ≤ arguments.common.numberOfMonteCarloIterations * sizeofDouble) then []
        else if !arguments.common.isBenchmarkingMode && !arguments.common.isOutputJSONMode then
          [(finalEstimate env arguments,
            (finalEstimate env arguments).map
              (printCalibratedValueAndProbabilities env.UxHwDoubleProbabilityGT))]
        else []) ∧
    (arguments.common.isMonteCarloMode = true →
      finalEstimate env arguments
        = (env.calculateMeanAndVarianceOfDoubleSamples
            (some ((List.range arguments.common.numberOfMonteCarloIterations).map
              (sampleValue env)))
            arguments.common.numberOfMonteCarloIterations).mean) := by
  refine ⟨?_, ?_⟩
  · by_cases hwrap : arguments.common.isMonteCarloMode = true ∧
        sizeModulus ≤ arguments.common.numberOfMonteCarloIterations * sizeofDouble
    · obtain ⟨trace, hmain, htable⟩ :=
        mainWithArguments_wraps env arguments stderr hwrap.1 (hmalloc hwrap.1) hwrap.2
      rw [main_of_validated env arguments stderr hv, hmain]
      simp [Outcome.trace, htable, hwrap.1, hwrap.2]
    · have hsize : arguments.common.isMonteCarloMode = true →
          arguments.common.numberOfMonteCarloIterations * sizeofDouble < sizeModulus := by
        intro hmc
        by_contra hnot
        exact hwrap ⟨hmc, by omega⟩
      rw [trace_reportedTable env arguments stderr hv hmalloc hsize]
      have hcond : (arguments.common.isMonteCarloMode &&
          decide (sizeModulus
            ≤ arguments.common.numberOfMonteCarloIterations * sizeofDouble)) = false := by
        cases hmc : arguments.common.isMonteCarloMode
        · simp
        · have := hsize hmc
          simp
          omega
      simp only [hcond]
      simp
  · intro hmc
    simp [finalEstimate, finalSamples, hmc]

theorem main_tail_table_witness :
    Validated (exampleEnvironment (timedMonteCarloConfiguration 2))
      { common := timedMonteCarloConfiguration 2 } [] ∧
    ((timedMonteCarloConfiguration 2).isMonteCarloMode = true →
      (exampleEnvironment (timedMonteCarloConfiguration 2)).checkedMallocSucceeds
        (allocationSize { common := timedMonteCarloConfiguration 2 }) = true) ∧
    (main (exampleEnvironment (timedMonteCarloConfiguration 2))).trace.filterMap
        Event.reportedTable
      = [(finalEstimate (exampleEnvironment (timedMonteCarloConfiguration 2))
            { common := timedMonteCarloConfiguration 2 },
          (finalEstimate (exampleEnvironment (timedMonteCarloConfiguration 2))
            { common := timedMonteCarloConfiguration 2 }).map
            (printCalibratedValueAndProbabilities (pointMassProbabilityGT 11)))] :=
  ⟨rfl, fun _ => rfl,
    (main_tail_table (exampleEnvironment (timedMonteCarloConfiguration 2))
      { common := timedMonteCarloConfiguration 2 } [] rfl (fun _ => rfl)).1⟩

/-! ## Zero iterations -/

/-- C9 as stated fails: in Monte Carlo mode with iteration count 0, a validated
configuration, `main` calls the aggregator on the empty buffer with count 0, hands the mean
it returns to `printCalibratedValueAndProbabilities` as the estimate, saves and returns 0,
having written no diagnostic: nothing signals that the statistics are undefined. -/
theorem main_zero_iterations_no_signal :
    Validated (exampleEnvironment (monteCarloConfiguration 0))
      { common := monteCarloConfiguration 0 } [] ∧
    (monteCarloConfiguration 0).isMonteCarloMode = true ∧
    (monteCarloConfiguration 0).numberOfMonteCarloIterations = 0 ∧
    main (exampleEnvironment (monteCarloConfiguration 0))
      = .returned 0 []
          [Event.checkedMalloc 0,
           Event.calculateMeanAndVarianceOfDoubleSamples (some []) 0,
           Event.printCalibratedValueAndProbabilities
             (twoPassMeanAndVariance (some []) 0).mean
             ((twoPassMeanAndVariance (some []) 0).mean.map
               (printCalibratedValueAndProbabilities (pointMassProbabilityGT 11))),
           Event.saveMonteCarloDoubleDataToDataDotOutFile (some []) none 0,
           Event.free] ∧
    ¬ (main (exampleEnvironment (monteCarloConfiguration 0))).signalsUndefinedStatistics := by
  have hv : Validated (exampleEnvironment (monteCarloConfiguration 0))
      { common := monteCarloConfiguration 0 } [] := rfl
  have hmain : main (exampleEnvironment (monteCarloConfiguration 0))
      = .returned 0 []
          [Event.checkedMalloc 0,
           Event.calculateMeanAndVarianceOfDoubleSamples (some []) 0,
           Event.printCalibratedValueAndProbabilities
             (twoPassMeanAndVariance (some []) 0).mean
             ((twoPassMeanAndVariance (some []) 0).mean.map
               (printCalibratedValueAndProbabilities (pointMassProbabilityGT 11))),
           Event.saveMonteCarloDoubleDataToDataDotOutFile (some []) none 0,
           Event.free] := by
    rw [main_of_validated _ _ _ hv,
      mainWithArguments_eq _ _ _ (fun _ => rfl) (fun _ => by decide)]
    simp [csvWriterFails, eventsThroughLoop, eventsAfterLoop, eventsOfReport, eventsOfSave,
      finalEstimate, finalSamples, finalCpuTimeUsedSeconds, monteCarloConfiguration,
      defaultConfiguration, zeroCommonCommandLineArguments, Double.mulConst, castToUInt64,
      allocationSize]
    simp [exampleEnvironment]
  refine ⟨hv, rfl, rfl, hmain, ?_⟩
  rw [hmain]
  simp [Outcome.signalsUndefinedStatistics, Outcome.status, Outcome.stderr]

/-- C9, amended: for every validated configuration in Monte Carlo mode with iteration count
0 (the allocation having succeeded), `main` produces an empty sample buffer, stores nothing
in it, calls the aggregator on it with count 0 and hands the mean the aggregator returns to
the report as the estimate (the empty sample array in JSON mode without benchmarking); it
returns 0 and writes no diagnostic besides those of the validation. -/
theorem main_zero_iterations (env : Environment) (arguments : CommandLineArguments)
    (stderr : List Diagnostic) (hv : Validated env arguments stderr)
    (hmc : arguments.common.isMonteCarloMode = true)
    (hn : arguments.common.numberOfMonteCarloIterations = 0)
    (hmalloc : env.checkedMallocSucceeds (allocationSize arguments) = true) :
    (∃ s, stateAfterLoop env arguments = some s ∧ s.monteCarloOutputSamples = some []) ∧
    (main env).trace.filterMap Event.storedSample = [] ∧
    (main env).trace.filterMap Event.aggregated = [(some [], 0)] ∧
    (main env).trace.filterMap Event.handedToReport
      = [if !arguments.common.isBenchmarkingMode && arguments.common.isOutputJSONMode then []
        else [(env.calculateMeanAndVarianceOfDoubleSamples (some []) 0).mean]] ∧
    (main env).status = some 0 ∧
    (main env).stderr = stderr := by
  have hsize : arguments.common.numberOfMonteCarloIterations * sizeofDouble < sizeModulus := by
    rw [hn]
    decide
  obtain ⟨s, hs, hsam, -⟩ := stateAfterLoop_samples env arguments hmc hmalloc hsize
  obtain ⟨-, hstderr, hstatus⟩ :=
    main_trace env arguments stderr hv (fun _ => hmalloc) (fun _ => hsize)
  refine ⟨⟨s, hs, by rw [hsam, hn]; rfl⟩, ?_, ?_, ?_, ?_, hstderr⟩
  · rw [trace_storedSample env arguments stderr hv (fun _ => hmalloc) (fun _ => hsize)]
    simp [hn]
  · rw [trace_aggregated env arguments stderr hv (fun _ => hmalloc) (fun _ => hsize)]
    simp [hmc, hn, finalSamples]
  · rw [trace_handedToReport env arguments stderr hv (fun _ => hmalloc) (fun _ => hsize)]
    simp [hmc, hn, finalSamples, finalEstimate]
  · rw [hstatus, csvWriterFails_monteCarlo env arguments stderr hv hmc]
    rfl

theorem main_zero_iterations_witness :
    Validated (exampleEnvironment (timedMonteCarloConfiguration 0))
      { common := timedMonteCarloConfiguration 0 } [] ∧
    (timedMonteCarloConfiguration 0).isMonteCarloMode = true ∧
    (timedMonteCarloConfiguration 0).numberOfMonteCarloIterations = 0 ∧
    (exampleEnvironment (timedMonteCarloConfiguration 0)).checkedMallocSucceeds
      (allocationSize { common := timedMonteCarloConfiguration 0 }) = true ∧
    (main (exampleEnvironment (timedMonteCarloConfiguration 0))).trace.filterMap
        Event.aggregated = [(some [], 0)] ∧
    (main (exampleEnvironment (timedMonteCarloConfiguration 0))).trace.filterMap
        Event.handedToReport = [[(twoPassMeanAndVariance (some []) 0).mean]] ∧
    (main (exampleEnvironment (timedMonteCarloConfiguration 0))).status = some 0 :=
  ⟨rfl, rfl, rfl, rfl,
    (main_zero_iterations (exampleEnvironment (timedMonteCarloConfiguration 0))
      { common := timedMonteCarloConfiguration 0 } [] rfl rfl rfl rfl).2.2.1,
    (main_zero_iterations (exampleEnvironment (timedMonteCarloConfiguration 0))
      { common := timedMonteCarloConfiguration 0 } [] rfl rfl rfl rfl).2.2.2.1,
    (main_zero_iterations (exampleEnvironment (timedMonteCarloConfiguration 0))
      { common := timedMonteCarloConfiguration 0 } [] rfl rfl rfl rfl).2.2.2.2.1⟩

/-! ## The elapsed time handed to the data-file writer -/

/-- C10 fails on the code: in Monte Carlo mode with one iteration and neither the timing
nor the benchmarking option, a validated configuration, `main` hands
`saveMonteCarloDoubleDataToDataDotOutFile` the full buffer and the count, but as elapsed time
the conversion of `cpuTimeUsedSeconds`, which was never assigned: no defined value. With the
timing option the same call is handed the measured time, 1000 microseconds here. -/
theorem main_saves_unmeasured_time :
    Validated (exampleEnvironment (monteCarloConfiguration 1))
      { common := monteCarloConfiguration 1 } [] ∧
    (monteCarloConfiguration 1).isMonteCarloMode = true ∧
    (monteCarloConfiguration 1).isTimingEnabled = false ∧
    (monteCarloConfiguration 1).isBenchmarkingMode = false ∧
    (main (exampleEnvironment (monteCarloConfiguration 1))).trace.filterMap
        Event.savedToDataFile
      = [(some [some (32 / 3)], none, 1)] ∧
    (main (exampleEnvironment (timedMonteCarloConfiguration 1))).trace.filterMap
        Event.savedToDataFile
      = [(some [some (32 / 3)], some 1000, 1)] := by
  have hv : Validated (exampleEnvironment (monteCarloConfiguration 1))
      { common := monteCarloConfiguration 1 } [] := rfl
  have hvt : Validated (exampleEnvironment (timedMonteCarloConfiguration 1))
      { common := timedMonteCarloConfiguration 1 } [] := rfl
  have hsam : ∀ common : CommonCommandLineArguments, common.isMonteCarloMode = true →
      common.numberOfMonteCarloIterations = 1 →
      finalSamples (exampleEnvironment common) { common := common }
        = some [some (32 / 3)] := by
    intro common h1 h2
    simp [finalSamples, h1, h2, List.range_succ, sampleValue_exampleEnvironment]
  refine ⟨hv, rfl, rfl, rfl, ?_, ?_⟩
  · rw [trace_savedToDataFile _ _ _ hv rfl rfl (by decide), hsam _ rfl rfl]
    simp [finalCpuTimeUsedSeconds, monteCarloConfiguration,
      defaultConfiguration, zeroCommonCommandLineArguments, Double.mulConst, castToUInt64]
  · rw [trace_savedToDataFile _ _ _ hvt rfl rfl (by decide), hsam _ rfl rfl]
    simp [finalCpuTimeUsedSeconds, timedMonteCarloConfiguration,
      monteCarloConfiguration, defaultConfiguration, zeroCommonCommandLineArguments,
      Double.mulConst, castToUInt64, exampleEnvironment]

/-! ## The range of the calibrated current under the default priors -/

/-- The value `calculateSensorOutput` returns on defined inputs. -/
theorem calculateSensorOutput_value (Vout Vref : ℚ) (outputDistributions : OutputDistributions) :
    (calculateSensorOutput ⟨inputVector Vout Vref, outputDistributions⟩).1
      = some ((Vout - Vref) / (75 / 1000)) := by
  have hne : kInputDistributionIndexVref ≠ kInputDistributionIndexVout := by decide
  simp [calculateSensorOutput, inputVector, hne, Double.sub, Double.divConst,
    kSensorCalibrationConstantTMCS1123x3ASensitivity]

/-- C11: for every `Vout` in `[3.2, 3.4]` and every `Vref` in `[2.4, 2.6]`, the default
prior bounds, the value `calculateSensorOutput` computes lies in `[8, 40/3]`; the bounds are
attained at the corners `(3.2, 2.6)` and `(3.4, 2.4)`. In particular the value `c` is
strictly positive, so `c * (1 - k) < c < c * (1 + k)` for every reported `k`. -/
theorem calculateSensorOutput_range (Vout Vref : ℚ) (outputDistributions : OutputDistributions)
    (hVoutLow : kDefaultInputDistributionVoutUniformDistLow ≤ Vout)
    (hVoutHigh : Vout ≤ kDefaultInputDistributionVoutUniformDistHigh)
    (hVrefLow : kDefaultInputDistributionVrefUniformDistLow ≤ Vref)
    (hVrefHigh : Vref ≤ kDefaultInputDistributionVrefUniformDistHigh) :
    (∃ c : ℚ,
      (calculateSensorOutput ⟨inputVector Vout Vref, outputDistributions⟩).1 = some c ∧
      8 ≤ c ∧ c ≤ 40 / 3 ∧ 0 < c ∧
      ∀ pk ∈ reportedOffsets, c * (1 - pk.2) < c ∧ c < c * (1 + pk.2)) ∧
    (calculateSensorOutput
        ⟨inputVector kDefaultInputDistributionVoutUniformDistLow
            kDefaultInputDistributionVrefUniformDistHigh, outputDistributions⟩).1
      = some 8 ∧
    (calculateSensorOutput
        ⟨inputVector kDefaultInputDistributionVoutUniformDistHigh
            kDefaultInputDistributionVrefUniformDistLow, outputDistributions⟩).1
      = some (40 / 3) ∧
    kDefaultInputDistributionVoutUniformDistLow = 3.2 ∧
    kDefaultInputDistributionVoutUniformDistHigh = 3.4 ∧
    kDefaultInputDistributionVrefUniformDistLow = 2.4 ∧
    kDefaultInputDistributionVrefUniformDistHigh = 2.6 := by
  simp only [kDefaultInputDistributionVoutUniformDistLow,
    kDefaultInputDistributionVoutUniformDistHigh, kDefaultInputDistributionVrefUniformDistLow,
    kDefaultInputDistributionVrefUniformDistHigh] at *
  have hlow : (8 : ℚ) ≤ (Vout - Vref) / (75 / 1000) := by
    rw [le_div_iff₀ (by norm_num)]
    linarith
  have hhigh : (Vout - Vref) / (75 / 1000) ≤ (40 / 3 : ℚ) := by
    rw [div_le_iff₀ (by norm_num)]
    linarith
  have hpos : (0 : ℚ) < (Vout - Vref) / (75 / 1000) := by linarith
  refine ⟨⟨_, calculateSensorOutput_value Vout Vref outputDistributions, hlow, hhigh, hpos, ?_⟩,
    ?_, ?_, by norm_num, by norm_num, by norm_num, by norm_num⟩
  · intro pk hpk
    have hk : (0 : ℚ) < pk.2 := by
      simp only [reportedOffsets, List.mem_cons, List.mem_singleton, List.not_mem_nil,
        or_false] at hpk
      rcases hpk with rfl | rfl | rfl | rfl <;> norm_num
    constructor <;> nlinarith
  · rw [calculateSensorOutput_value]
    norm_num
  · rw [calculateSensorOutput_value]
    norm_num

theorem calculateSensorOutput_range_witness :
    kDefaultInputDistributionVoutUniformDistLow ≤ (33 / 10 : ℚ) ∧
    (33 / 10 : ℚ) ≤ kDefaultInputDistributionVoutUniformDistHigh ∧
    kDefaultInputDistributionVrefUniformDistLow ≤ (25 / 10 : ℚ) ∧
    (25 / 10 : ℚ) ≤ kDefaultInputDistributionVrefUniformDistHigh ∧
    ∃ c : ℚ,
      (calculateSensorOutput
        ⟨inputVector (33 / 10) (25 / 10), uninitialised kOutputDistributionIndexMax⟩).1
        = some c ∧
      8 ≤ c ∧ c ≤ 40 / 3 ∧ 0 < c ∧
      ∀ pk ∈ reportedOffsets, c * (1 - pk.2) < c ∧ c < c * (1 + pk.2) :=
  have h1 : kDefaultInputDistributionVoutUniformDistLow ≤ (33 / 10 : ℚ) := by
    norm_num [kDefaultInputDistributionVoutUniformDistLow]
  have h2 : (33 / 10 : ℚ) ≤ kDefaultInputDistributionVoutUniformDistHigh := by
    norm_num [kDefaultInputDistributionVoutUniformDistHigh]
  have h3 : kDefaultInputDistributionVrefUniformDistLow ≤ (25 / 10 : ℚ) := by
    norm_num [kDefaultInputDistributionVrefUniformDistLow]
  have h4 : (25 / 10 : ℚ) ≤ kDefaultInputDistributionVrefUniformDistHigh := by
    norm_num [kDefaultInputDistributionVrefUniformDistHigh]
  ⟨h1, h2, h3, h4,
    (calculateSensorOutput_range (33 / 10) (25 / 10)
      (uninitialised kOutputDistributionIndexMax) h1 h2 h3 h4).1⟩

end TMCS112x
